import Mathlib

/-
Verification development for the renderer-side paint scheduling and
frame-update protocol implemented by RenderWidget
(chrome/renderer/render_widget.cc).  The widget state, its message
handlers and its delegate callbacks are embedded as pure Lean
functions over an explicit state record; every externally visible
effect (messages forwarded to the host, posted tasks, released
buffers, routing-table removals, reference releases) is collected in
an effect record returned next to the successor state.
-/

namespace RW

/-- Modelled from the spec: gfx::Rect (not part of the sources) is an
integer-origin axis-aligned rectangle.  Intersect and Union follow the
standard gfx semantics: an empty intersection collapses to the zero
rectangle, and Union of a non-empty pair is the bounding box while an
empty operand is absorbed. -/
structure Rect where
  x : Int
  y : Int
  w : Int
  h : Int
deriving DecidableEq, Repr

def Rect.IsEmpty (r : Rect) : Bool :=
  decide (r.w ≤ 0) || decide (r.h ≤ 0)

def Rect.right (r : Rect) : Int := r.x + r.w

def Rect.bottom (r : Rect) : Int := r.y + r.h

def Rect.Intersect (a b : Rect) : Rect :=
  let rx := max a.x b.x
  let ry := max a.y b.y
  let rr := min a.right b.right
  let rb := min a.bottom b.bottom
  if rr ≤ rx ∨ rb ≤ ry then ⟨0, 0, 0, 0⟩
  else ⟨rx, ry, rr - rx, rb - ry⟩

def Rect.Union (a b : Rect) : Rect :=
  if a.IsEmpty then b
  else if b.IsEmpty then a
  else
    let rx := min a.x b.x
    let ry := min a.y b.y
    ⟨rx, ry, max a.right b.right - rx, max a.bottom b.bottom - ry⟩

/-- Modelled from the spec: gfx::Size (not part of the sources), a
width/height pair; empty when either dimension is not positive. -/
structure Size where
  w : Int
  h : Int
deriving DecidableEq, Repr

def Size.IsEmpty (s : Size) : Bool :=
  decide (s.w ≤ 0) || decide (s.h ≤ 0)

/-- Modelled from the spec: PaintAggregator (its implementation is not
part of the sources; only render_widget.cc's calls into it are).  It
accumulates pending scroll and paint-rect invalidations: InvalidateRect
adds the (caller-clipped) rect to the pending paint set; ScrollRect
replaces the scroll state, last scroll wins, retaining the newest clip
rect; HasPendingUpdate is true iff any scroll or paint entry is queued;
GetPendingUpdate is a read-only snapshot; ClearPendingUpdate resets to
the empty state; GetScrollDamage is the scroll clip rect or empty if
none; GetPaintBounds is the bounding box of all paint rects unioned
with the scroll damage. -/
structure PaintAggregator where
  scroll_rect : Rect
  scroll_dx : Int
  scroll_dy : Int
  paint_rects : List Rect
deriving DecidableEq, Repr

def PaintAggregator.empty : PaintAggregator :=
  ⟨⟨0, 0, 0, 0⟩, 0, 0, []⟩

def PaintAggregator.HasPendingUpdate (a : PaintAggregator) : Bool :=
  !a.scroll_rect.IsEmpty || !a.paint_rects.isEmpty

def PaintAggregator.InvalidateRect (a : PaintAggregator) (r : Rect) :
    PaintAggregator :=
  { a with paint_rects := a.paint_rects ++ [r] }

def PaintAggregator.ScrollRect (a : PaintAggregator) (dx dy : Int)
    (clip : Rect) : PaintAggregator :=
  { a with scroll_rect := clip, scroll_dx := dx, scroll_dy := dy }

def PaintAggregator.GetPendingUpdate (a : PaintAggregator) :
    PaintAggregator := a

def PaintAggregator.ClearPendingUpdate (_ : PaintAggregator) :
    PaintAggregator := PaintAggregator.empty

def PaintAggregator.GetScrollDamage (a : PaintAggregator) : Rect :=
  a.scroll_rect

def PaintAggregator.GetPaintBounds (a : PaintAggregator) : Rect :=
  (a.paint_rects.foldl Rect.Union ⟨0, 0, 0, 0⟩).Union a.GetScrollDamage

/-- Routing id value for a message with no routing id (MSG_ROUTING_NONE). -/
def MSG_ROUTING_NONE : Int := -2

/-- ViewHostMsg_UpdateRect_Flags bit values. -/
def IS_RESIZE_ACK : Nat := 1

def IS_RESTORE_ACK : Nat := 2

def IS_REPAINT_ACK : Nat := 4

def resizeAckBit (flags : Nat) : Bool := decide (flags &&& IS_RESIZE_ACK ≠ 0)

/-- WebInputEvent types distinguished by OnHandleInputEvent. -/
inductive EventType where
  | MouseMove
  | MouseWheel
  | MouseDown
  | RawKeyDown
  | KeyUp
  | Char
  | Other
deriving DecidableEq, Repr

def EventType.isKeyboard (t : EventType) : Bool :=
  match t with
  | .RawKeyDown => true
  | .KeyUp => true
  | .Char => true
  | _ => false

/-- Payload of ViewHostMsg_UpdateRect (ViewHostMsg_UpdateRect_Params). -/
structure UpdateRectParams where
  bitmap : Nat
  bitmap_rect : Rect
  dx : Int
  dy : Int
  scroll_rect : Rect
  copy_rects : List Rect
  view_size : Size
  plugin_window_moves : List Nat
  flags : Nat
deriving DecidableEq, Repr

/-- Payloads of the messages RenderWidget routes through Send. -/
inductive Payload where
  | updateRect (p : UpdateRectParams)
  | inputEventAck (event_type : EventType) (processed : Bool)
  | gpuRenderingActivated (active : Bool)
  | imeUpdateTextInputState
  | deferredClose
  | generic (tag : Nat)
deriving DecidableEq, Repr

structure Msg where
  routing_id : Int
  payload : Payload
deriving DecidableEq, Repr

def Msg.isUpdateRect (m : Msg) : Bool :=
  match m.payload with
  | .updateRect _ => true
  | _ => false

def countUpdateRects (l : List Msg) : Nat :=
  (l.filter Msg.isUpdateRect).length

/-- The first ViewHostMsg_UpdateRect in a list of forwarded messages. -/
def firstUpdateRect (l : List Msg) : Option UpdateRectParams :=
  match l with
  | [] => none
  | m :: rest =>
    match m.payload with
    | .updateRect p => some p
    | _ => firstUpdateRect rest

/-- A buffered input-event acknowledgement
(pending_input_event_ack_); the response message is created with the
widget's routing id and carries the event type and the processed bit. -/
structure PendingAck where
  routing_id : Int
  event_type : EventType
  processed : Bool
deriving DecidableEq, Repr

def PendingAck.toMsg (a : PendingAck) : Msg :=
  ⟨a.routing_id, .inputEventAck a.event_type a.processed⟩

/-- Externally visible effects of one operation: messages actually
forwarded to the host through Send, deferred-update tasks and deferred
close tasks posted to the message loop, transport DIBs released back to
the pool, routing-table removals, and reference releases. -/
structure Eff where
  sent : List Msg
  updateTasks : Nat
  closeTasks : Nat
  dibReleases : Nat
  routeRemovals : Nat
  refReleases : Nat
deriving DecidableEq, Repr

def Eff.nil : Eff := ⟨[], 0, 0, 0, 0, 0⟩

def Eff.add (a b : Eff) : Eff :=
  ⟨a.sent ++ b.sent, a.updateTasks + b.updateTasks,
   a.closeTasks + b.closeTasks, a.dibReleases + b.dibReleases,
   a.routeRemovals + b.routeRemovals, a.refReleases + b.refReleases⟩

def effSent (l : List Msg) : Eff := ⟨l, 0, 0, 0, 0, 0⟩

/-- The RenderWidget state embedded from render_widget.cc.  webwidget
is whether webwidget_ is non-null; current_paint_buf holds the id of
the checked-out transport DIB, if any. -/
structure RWState where
  routing_id : Int
  webwidget : Bool
  size : Size
  is_hidden : Bool
  needs_repainting_on_restore : Bool
  closing : Bool
  update_reply_pending : Bool
  current_paint_buf : Option Nat
  next_paint_flags : Nat
  paint_aggregator : PaintAggregator
  pending_input_event_ack : Option PendingAck
  is_gpu_rendering_active : Bool
  input_method_is_active : Bool
  suppress_next_char_events : Bool
  resizer_rect : Rect
  plugin_window_moves : List Nat
deriving DecidableEq, Repr

/-- RenderWidget::Send: after the browser has told us to close, the
message is deleted and false returned; otherwise a message without a
routing id is stamped with the widget's routing id and forwarded to
the render thread.  The returned list holds the forwarded message. -/
def RWState.Send (s : RWState) (m : Msg) : Bool × List Msg :=
  if s.closing then (false, [])
  else
    let m2 := if m.routing_id = MSG_ROUTING_NONE then
                { m with routing_id := s.routing_id }
              else m
    (true, [m2])

def viewRect (s : RWState) : Rect := ⟨0, 0, s.size.w, s.size.h⟩

/-- RenderWidget::didInvalidateRect: the invalidated rect is clipped
against the view bounds; an empty result is a no-op; otherwise the
clipped rect is forwarded to the aggregator and one asynchronous
CallDoDeferredUpdate task is posted unless an update was already
pending before the call, the aggregator reports nothing pending, or an
update reply is pending. -/
def didInvalidateRect (s : RWState) (r : Rect) : RWState × Eff :=
  let update_pending := s.paint_aggregator.HasPendingUpdate
  let damaged_rect := (viewRect s).Intersect r
  if damaged_rect.IsEmpty then (s, Eff.nil)
  else
    let s1 := { s with
      paint_aggregator := s.paint_aggregator.InvalidateRect damaged_rect }
    if update_pending then (s1, Eff.nil)
    else if !s1.paint_aggregator.HasPendingUpdate then (s1, Eff.nil)
    else if s1.update_reply_pending then (s1, Eff.nil)
    else (s1, { Eff.nil with updateTasks := 1 })

/-- RenderWidget::didScrollRect, mirroring didInvalidateRect with the
aggregator's ScrollRect. -/
def didScrollRect (s : RWState) (dx dy : Int) (clip : Rect) :
    RWState × Eff :=
  let update_pending := s.paint_aggregator.HasPendingUpdate
  let damaged_rect := (viewRect s).Intersect clip
  if damaged_rect.IsEmpty then (s, Eff.nil)
  else
    let s1 := { s with
      paint_aggregator := s.paint_aggregator.ScrollRect dx dy damaged_rect }
    if update_pending then (s1, Eff.nil)
    else if !s1.paint_aggregator.HasPendingUpdate then (s1, Eff.nil)
    else if s1.update_reply_pending then (s1, Eff.nil)
    else (s1, { Eff.nil with updateTasks := 1 })

/-- Environment of one DoDeferredUpdate run: whether accelerated
compositing is active on the webwidget, the rects the webwidget
invalidates from inside layout(), whether GetDrawingCanvas succeeds
and with which transport DIB id, the canvas device dimensions actually
returned (the code DCHECKs them equal to the requested bounds), and
whether the text-input state changed for UpdateInputMethod. -/
structure UpdEnv where
  acceleratedActive : Bool
  layoutInvals : List Rect
  acquireOk : Bool
  bufId : Nat
  deviceW : Int
  deviceH : Int
  imeChanged : Bool

/-- Invalidations issued by the webwidget during layout(), each going
through didInvalidateRect. -/
def runInvals (rs : List Rect) (s : RWState) : RWState × Eff :=
  match rs with
  | [] => (s, Eff.nil)
  | r :: rest =>
    let p := didInvalidateRect s r
    let q := runInvals rest p.1
    (q.1, Eff.add p.2 q.2)

/-- The accelerated-compositing activation check at the top of the
non-early-return part of DoDeferredUpdate. -/
def gpuActivationStep (env : UpdEnv) (s : RWState) : RWState × Eff :=
  if env.acceleratedActive != s.is_gpu_rendering_active then
    let s1 := { s with is_gpu_rendering_active := env.acceleratedActive }
    (s1, effSent
      (s1.Send ⟨s1.routing_id,
                .gpuRenderingActivated env.acceleratedActive⟩).2)
  else (s, Eff.nil)

/-- RenderWidget::UpdateInputMethod: sends an
ImeUpdateTextInputState message only while the input method is active
and the cached text-input type or caret bounds changed (the comparison
with the webwidget's current values is abstracted as imeChanged). -/
def UpdateInputMethod (env : UpdEnv) (s : RWState) : RWState × Eff :=
  if !s.input_method_is_active then (s, Eff.nil)
  else if env.imeChanged then
    (s, effSent (s.Send ⟨s.routing_id, .imeUpdateTextInputState⟩).2)
  else (s, Eff.nil)

/-- The part of RenderWidget::DoDeferredUpdate past its early-return
guards: gpu-activation check, layout, snapshot and clear of the
aggregator, canvas acquisition (early return on failure, after the
clear), collapse of the paint rects to the single bounds rect when the
scroll rect is empty, append of the scroll damage, assembly and send of
ViewHostMsg_UpdateRect, reset of next_paint_flags, UpdateInputMethod. -/
def sendPhase (env : UpdEnv) (s : RWState) : RWState × Eff :=
  let g := gpuActivationStep env s
  let l := runInvals env.layoutInvals g.1
  let s2 := l.1
  let update := s2.paint_aggregator.GetPendingUpdate
  let s3 := { s2 with
    paint_aggregator := s2.paint_aggregator.ClearPendingUpdate }
  let scroll_damage := update.GetScrollDamage
  let bounds0 := update.GetPaintBounds.Union scroll_damage
  if !env.acquireOk then (s3, Eff.add g.2 l.2)
  else
    let s4 := { s3 with current_paint_buf := some env.bufId }
    let bounds : Rect := ⟨bounds0.x, bounds0.y, env.deviceW, env.deviceH⟩
    let paint_rects :=
      if update.scroll_rect.IsEmpty then [bounds] else update.paint_rects
    let copy_rects :=
      paint_rects ++ (if !scroll_damage.IsEmpty then [scroll_damage] else [])
    let params : UpdateRectParams :=
      { bitmap := env.bufId
        bitmap_rect := bounds
        dx := update.scroll_dx
        dy := update.scroll_dy
        scroll_rect :=
          if s4.is_gpu_rendering_active then ⟨0, 0, 0, 0⟩
          else update.scroll_rect
        copy_rects := if s4.is_gpu_rendering_active then [] else copy_rects
        view_size := s4.size
        plugin_window_moves := s4.plugin_window_moves
        flags := s4.next_paint_flags }
    let s5 := { s4 with
      plugin_window_moves := [], update_reply_pending := true }
    let sendRes := s5.Send ⟨s5.routing_id, .updateRect params⟩
    let s6 := { s5 with next_paint_flags := 0 }
    let ime := UpdateInputMethod env s6
    (ime.1,
     Eff.add (Eff.add g.2 l.2) (Eff.add (effSent sendRes.2) ime.2))

/-- RenderWidget::DoDeferredUpdate: returns untouched when the
webwidget is gone, nothing is pending, or an update reply is pending;
when hidden or with an empty size, discards the pending update and
remembers a repaint for restore; otherwise runs the send phase. -/
def DoDeferredUpdate (env : UpdEnv) (s : RWState) : RWState × Eff :=
  if !s.webwidget || !s.paint_aggregator.HasPendingUpdate ||
      s.update_reply_pending then
    (s, Eff.nil)
  else if s.is_hidden || s.size.IsEmpty then
    ({ s with paint_aggregator := s.paint_aggregator.ClearPendingUpdate,
              needs_repainting_on_restore := true }, Eff.nil)
  else sendPhase env s

/-- RenderWidget::CallDoDeferredUpdate: runs DoDeferredUpdate, then
releases and sends the buffered input-event ack, if any. -/
def CallDoDeferredUpdate (env : UpdEnv) (s : RWState) : RWState × Eff :=
  let d := DoDeferredUpdate env s
  match d.1.pending_input_event_ack with
  | some a =>
    let s1 := { d.1 with pending_input_event_ack := none }
    (s1, Eff.add d.2 (effSent (s1.Send a.toMsg).2))
  | none => d

/-- RenderWidget::OnUpdateRectAck: clears update_reply_pending_,
releases the current transport DIB back to the pool if one is held,
and continues painting via CallDoDeferredUpdate. -/
def OnUpdateRectAck (env : UpdEnv) (s : RWState) : RWState × Eff :=
  let s1 := { s with update_reply_pending := false }
  match s1.current_paint_buf with
  | some _ =>
    let s2 := { s1 with current_paint_buf := none }
    let c := CallDoDeferredUpdate env s2
    (c.1, Eff.add { Eff.nil with dibReleases := 1 } c.2)
  | none => CallDoDeferredUpdate env s1

/-- Environment of one OnHandleInputEvent run: whether reading the
event payload out of the message succeeds, the event type, the
keyboard-shortcut flag read for RawKeyDown events, and what
webwidget_->handleInputEvent returns. -/
structure InputEnv where
  readOk : Bool
  eventType : EventType
  isKeyboardShortcutFlag : Bool
  widgetProcessed : Bool

/-- RenderWidget::OnHandleInputEvent: dispatches the event to the
webwidget (suppressing Char events after an unprocessed RawKeyDown
shortcut), builds the ack; for MouseMove and MouseWheel events with a
pending paint the ack is buffered in the single pending slot, first
sending any previously buffered ack; otherwise the ack is sent
immediately. -/
def OnHandleInputEvent (env : InputEnv) (s : RWState) : RWState × Eff :=
  if !env.readOk then (s, Eff.nil)
  else
    let is_keyboard_shortcut :=
      if env.eventType = EventType.RawKeyDown then env.isKeyboardShortcutFlag
      else false
    let pr :=
      if env.eventType ≠ EventType.Char ∨
          s.suppress_next_char_events = false then
        ({ s with suppress_next_char_events := false },
         if s.webwidget then env.widgetProcessed else false)
      else (s, false)
    let processed := pr.2
    let s2 :=
      if !processed && is_keyboard_shortcut then
        { pr.1 with suppress_next_char_events := true }
      else pr.1
    let response : PendingAck := ⟨s2.routing_id, env.eventType, processed⟩
    if (env.eventType = EventType.MouseMove ∨
        env.eventType = EventType.MouseWheel) ∧
        s2.paint_aggregator.HasPendingUpdate = true then
      match s2.pending_input_event_ack with
      | some old =>
        ({ s2 with pending_input_event_ack := some response },
         effSent (s2.Send old.toMsg).2)
      | none =>
        ({ s2 with pending_input_event_ack := some response }, Eff.nil)
    else (s2, effSent (s2.Send response.toMsg).2)

/-- RenderWidget::OnClose: a second call finds closing_ already set
and returns; the first call sets closing_, removes the route and
resets hidden when a routing id is assigned, posts the non-nestable
deferred Close task, and releases the reference taken at AddRoute. -/
def OnClose (s : RWState) : RWState × Eff :=
  if s.closing then (s, Eff.nil)
  else
    let s1 := { s with closing := true }
    if s1.routing_id ≠ MSG_ROUTING_NONE then
      ({ s1 with is_hidden := false },
       { Eff.nil with closeTasks := 1, routeRemovals := 1, refReleases := 1 })
    else
      (s1, { Eff.nil with closeTasks := 1, refReleases := 1 })

/-- RenderWidget::OnResize: ignored during shutdown; records the
resizer rect, resets hidden and the restore-repaint flag, adopts the
new size, clears the aggregator, resizes the webwidget — which forces
a full-view invalidation (modelled, per the spec, as a
didInvalidateRect of the whole view; the code DCHECKs that a non-empty
resize leaves the aggregator pending) — and, for a non-empty size,
marks the next paint as the resize ack. -/
def OnResize (new_size : Size) (resizer : Rect) (s : RWState) :
    RWState × Eff :=
  if !s.webwidget then (s, Eff.nil)
  else
    let s1 := { s with
      resizer_rect := resizer
      is_hidden := false
      needs_repainting_on_restore := false
      size := new_size
      paint_aggregator := s.paint_aggregator.ClearPendingUpdate }
    let inv := didInvalidateRect s1 ⟨0, 0, new_size.w, new_size.h⟩
    if !new_size.IsEmpty then
      ({ inv.1 with
         next_paint_flags := inv.1.next_paint_flags ||| IS_RESIZE_ACK },
       inv.2)
    else inv

/-- RenderWidget::OnWasHidden. -/
def OnWasHidden (s : RWState) : RWState × Eff :=
  ({ s with is_hidden := true }, Eff.nil)

/-- RenderWidget::OnWasRestored: ignored during shutdown; leaves
hidden mode and, when repainting is needed, tags the next paint as a
restore ack and generates a full repaint. -/
def OnWasRestored (needs_repainting : Bool) (s : RWState) :
    RWState × Eff :=
  if !s.webwidget then (s, Eff.nil)
  else
    let s1 := { s with is_hidden := false }
    if !needs_repainting && !s1.needs_repainting_on_restore then
      (s1, Eff.nil)
    else
      let s2 := { s1 with
        needs_repainting_on_restore := false
        next_paint_flags := s1.next_paint_flags ||| IS_RESTORE_ACK }
      didInvalidateRect s2 ⟨0, 0, s2.size.w, s2.size.h⟩

/-- RenderWidget::OnMsgRepaint: ignored during shutdown; tags the next
paint as a repaint ack and invalidates the requested size. -/
def OnMsgRepaint (size_to_paint : Size) (s : RWState) : RWState × Eff :=
  if !s.webwidget then (s, Eff.nil)
  else
    let s1 := { s with
      next_paint_flags := s.next_paint_flags ||| IS_REPAINT_ACK }
    didInvalidateRect s1 ⟨0, 0, size_to_paint.w, size_to_paint.h⟩

/-- The operations an execution interleaves on one widget: host
messages, delegate callbacks from the rendering engine, and the
deferred-update task posted by the widget itself. -/
inductive Op where
  | close
  | resize (new_size : Size) (resizer : Rect)
  | wasHidden
  | wasRestored (needs_repainting : Bool)
  | updateRectAck (env : UpdEnv)
  | handleInputEvent (env : InputEnv)
  | invalidateRect (r : Rect)
  | scrollRect (dx dy : Int) (clip : Rect)
  | deferredUpdateTask (env : UpdEnv)
  | msgRepaint (sz : Size)

def Op.isUpdateRectAck (op : Op) : Bool :=
  match op with
  | .updateRectAck _ => true
  | _ => false

def step (op : Op) (s : RWState) : RWState × Eff :=
  match op with
  | .close => OnClose s
  | .resize n r => OnResize n r s
  | .wasHidden => OnWasHidden s
  | .wasRestored b => OnWasRestored b s
  | .updateRectAck env => OnUpdateRectAck env s
  | .handleInputEvent env => OnHandleInputEvent env s
  | .invalidateRect r => didInvalidateRect s r
  | .scrollRect dx dy clip => didScrollRect s dx dy clip
  | .deferredUpdateTask env => CallDoDeferredUpdate env s
  | .msgRepaint sz => OnMsgRepaint sz s

def run (ops : List Op) (s : RWState) : RWState × Eff :=
  match ops with
  | [] => (s, Eff.nil)
  | op :: rest =>
    let p := step op s
    let q := run rest p.1
    (q.1, Eff.add p.2 q.2)

/-- The widget state after the gpu-activation check and layout inside
DoDeferredUpdate's send phase. -/
def layoutState (env : UpdEnv) (s : RWState) : RWState :=
  (runInvals env.layoutInvals (gpuActivationStep env s).1).1

/-- The pending-update snapshot DoDeferredUpdate takes right before
clearing the aggregator. -/
def snapshotAgg (env : UpdEnv) (s : RWState) : PaintAggregator :=
  (layoutState env s).paint_aggregator

/-- The union bounds DoDeferredUpdate computes for a snapshot. -/
def sentBounds0 (u : PaintAggregator) : Rect :=
  u.GetPaintBounds.Union u.GetScrollDamage

/-- The bitmap rect of the sent update: the union bounds with the
dimensions the acquired canvas actually has. -/
def sentBounds (env : UpdEnv) (u : PaintAggregator) : Rect :=
  ⟨(sentBounds0 u).x, (sentBounds0 u).y, env.deviceW, env.deviceH⟩

/-- The copy_rects DoDeferredUpdate assembles from a snapshot: the
paint rects (collapsed to the single bounds rect when the scroll rect
is empty) followed by the scroll damage when it is non-empty. -/
def sentCopyRects (env : UpdEnv) (u : PaintAggregator) : List Rect :=
  (if u.scroll_rect.IsEmpty then [sentBounds env u] else u.paint_rects) ++
  (if !u.GetScrollDamage.IsEmpty then [u.GetScrollDamage] else [])

/-- The ViewHostMsg_UpdateRect_Params DoDeferredUpdate sends from
state s for the snapshot u. -/
def sentParams (env : UpdEnv) (s : RWState) (u : PaintAggregator) :
    UpdateRectParams :=
  { bitmap := env.bufId
    bitmap_rect := sentBounds env u
    dx := u.scroll_dx
    dy := u.scroll_dy
    scroll_rect :=
      if env.acceleratedActive then ⟨0, 0, 0, 0⟩ else u.scroll_rect
    copy_rects :=
      if env.acceleratedActive then [] else sentCopyRects env u
    view_size := s.size
    plugin_window_moves := s.plugin_window_moves
    flags := s.next_paint_flags }

/-- A live widget state used to instantiate the claim theorems: routing
id assigned, webwidget alive, visible, 800x600, nothing pending. -/
def baseS : RWState :=
  { routing_id := 7
    webwidget := true
    size := ⟨800, 600⟩
    is_hidden := false
    needs_repainting_on_restore := false
    closing := false
    update_reply_pending := false
    current_paint_buf := none
    next_paint_flags := 0
    paint_aggregator := PaintAggregator.empty
    pending_input_event_ack := none
    is_gpu_rendering_active := false
    input_method_is_active := false
    suppress_next_char_events := false
    resizer_rect := ⟨0, 0, 0, 0⟩
    plugin_window_moves := [] }

/-- An environment for DoDeferredUpdate runs in which buffer
acquisition succeeds and the canvas comes back 10x10. -/
def okEnv : UpdEnv := ⟨false, [], true, 42, 10, 10, false⟩

/-- The state used by the C1 witness: a frame-update is in flight and
more damage is pending. -/
def w1S : RWState :=
  { baseS with
    update_reply_pending := true
    current_paint_buf := some 42
    paint_aggregator := PaintAggregator.empty.InvalidateRect
      ⟨0, 0, 10, 10⟩ }

/-- The state used for the C4 counterexample: visible widget with one
pending paint rect. -/
def c4S : RWState :=
  { baseS with
    paint_aggregator := PaintAggregator.empty.InvalidateRect
      ⟨0, 0, 10, 10⟩ }

/-- The environment used for the C4 counterexample: the drawing-canvas
acquisition fails. -/
def c4Env : UpdEnv := ⟨false, [], false, 42, 10, 10, false⟩

/-- The state used for the C9 counterexample: a scroll of (5,0)
clipped to (0,0,10,10) is queued together with an unrelated paint rect
(20,20,5,5). -/
def c9S : RWState :=
  { baseS with
    paint_aggregator :=
      (PaintAggregator.empty.ScrollRect 5 0 ⟨0, 0, 10, 10⟩).InvalidateRect
        ⟨20, 20, 5, 5⟩ }

/-- The environment used for the C9 counterexample: acquisition
succeeds and the canvas matches the 25x25 union bounds. -/
def c9Env : UpdEnv := ⟨false, [], true, 42, 25, 25, false⟩

/-- The state used by the C2 witness: an update in flight with buffer
42 held, and new damage accumulated meanwhile. -/
def w2S : RWState :=
  { baseS with
    update_reply_pending := true
    current_paint_buf := some 42
    paint_aggregator := PaintAggregator.empty.InvalidateRect
      ⟨0, 0, 10, 10⟩ }

/-- The state used by part of the C5 witness: a paint is pending and
an ack for a MouseMove is already buffered. -/
def w5S : RWState :=
  { baseS with
    paint_aggregator := PaintAggregator.empty.InvalidateRect
      ⟨0, 0, 10, 10⟩
    pending_input_event_ack :=
      some ⟨7, EventType.MouseMove, true⟩ }

/-- The input-event environment used by the C5 witness: a readable
MouseWheel event the webwidget processes. -/
def w5E : InputEnv := ⟨true, EventType.MouseWheel, false, true⟩

theorem Eff.add_nil (e : Eff) : Eff.add e Eff.nil = e := by
  cases e; simp [Eff.add, Eff.nil]

theorem Eff.nil_add (e : Eff) : Eff.add Eff.nil e = e := by
  cases e; simp [Eff.add, Eff.nil]

theorem effSent_add (a b : List Msg) :
    Eff.add (effSent a) (effSent b) = effSent (a ++ b) := by
  simp [Eff.add, effSent]

theorem effSent_nil : effSent [] = Eff.nil := rfl

theorem countUpdateRects_append (a b : List Msg) :
    countUpdateRects (a ++ b) = countUpdateRects a + countUpdateRects b := by
  simp [countUpdateRects]

theorem countUpdateRects_cons (m : Msg) (l : List Msg) :
    countUpdateRects (m :: l) =
      (if m.isUpdateRect then 1 else 0) + countUpdateRects l := by
  simp only [countUpdateRects, List.filter]
  cases h : m.isUpdateRect <;> simp [h, Nat.add_comm]

theorem firstUpdateRect_of_count_zero (l : List Msg)
    (h : countUpdateRects l = 0) : firstUpdateRect l = none := by
  induction l with
  | nil => rfl
  | cons m rest ih =>
    rw [countUpdateRects_cons] at h
    cases hm : m.isUpdateRect with
    | true => simp [hm] at h
    | false =>
      simp only [hm, if_neg Bool.false_ne_true, Nat.zero_add] at h
      simp only [firstUpdateRect]
      cases m with
      | mk i p =>
        cases p <;> simp_all [Msg.isUpdateRect, ih]

theorem firstUpdateRect_append (a b : List Msg) :
    firstUpdateRect (a ++ b) =
      match firstUpdateRect a with
      | some p => some p
      | none => firstUpdateRect b := by
  induction a with
  | nil => simp [firstUpdateRect]
  | cons m rest ih =>
    simp only [List.cons_append, firstUpdateRect]
    cases m with
    | mk i p => cases p <;> simp [ih]

theorem Send_closing (s : RWState) (m : Msg) (h : s.closing = true) :
    s.Send m = (false, []) := by
  simp [RWState.Send, h]

theorem Send_own (s : RWState) (p : Payload) (h : s.closing = false) :
    (s.Send ⟨s.routing_id, p⟩).2 = [⟨s.routing_id, p⟩] := by
  simp only [RWState.Send]
  rw [if_neg (by simp [h])]
  split <;> rfl

theorem Send_payload (s : RWState) (m : Msg) (h : s.closing = false) :
    ∃ i, (s.Send m).2 = [⟨i, m.payload⟩] := by
  simp only [RWState.Send]
  rw [if_neg (by simp [h])]
  split
  · exact ⟨s.routing_id, rfl⟩
  · exact ⟨m.routing_id, rfl⟩

theorem countUpdateRects_Send_ack (s : RWState) (a : PendingAck) :
    countUpdateRects (s.Send a.toMsg).2 = 0 := by
  simp only [RWState.Send, PendingAck.toMsg]
  split
  · rfl
  · split <;> rfl

theorem HasPending_invalidate (a : PaintAggregator) (r : Rect) :
    (a.InvalidateRect r).HasPendingUpdate = true := by
  simp only [PaintAggregator.InvalidateRect, PaintAggregator.HasPendingUpdate]
  cases a.paint_rects <;> simp

theorem HasPending_scroll (a : PaintAggregator) (dx dy : Int) (clip : Rect)
    (h : clip.IsEmpty = false) :
    (a.ScrollRect dx dy clip).HasPendingUpdate = true := by
  simp [PaintAggregator.ScrollRect, PaintAggregator.HasPendingUpdate, h]

theorem didInval_eq (s : RWState) (r : Rect) :
    didInvalidateRect s r =
      if ((viewRect s).Intersect r).IsEmpty then (s, Eff.nil)
      else
        ({ s with paint_aggregator :=
             s.paint_aggregator.InvalidateRect ((viewRect s).Intersect r) },
         if s.paint_aggregator.HasPendingUpdate = false ∧
             s.update_reply_pending = false then
           { Eff.nil with updateTasks := 1 }
         else Eff.nil) := by
  simp only [didInvalidateRect]
  split
  · rfl
  · split
    · rename_i hp
      rw [if_neg (by simp [hp])]
    · rename_i hp
      split
      · rename_i habs
        exfalso
        simp [HasPending_invalidate] at habs
      · split
        · rename_i hrep
          rw [if_neg (by simp [hrep])]
        · rename_i hrep
          rw [if_pos ⟨by simpa using hp, by simpa using hrep⟩]

theorem didScroll_eq (s : RWState) (dx dy : Int) (clip : Rect) :
    didScrollRect s dx dy clip =
      if ((viewRect s).Intersect clip).IsEmpty then (s, Eff.nil)
      else
        ({ s with paint_aggregator := s.paint_aggregator.ScrollRect dx dy ((viewRect s).Intersect clip) },
         if s.paint_aggregator.HasPendingUpdate = false ∧
             s.update_reply_pending = false then
           { Eff.nil with updateTasks := 1 }
         else Eff.nil) := by
  simp only [didScrollRect]
  split
  · rfl
  · rename_i h
    split
    · rename_i hp
      rw [if_neg (by simp [hp])]
    · rename_i hp
      split
      · rename_i habs
        exfalso
        rw [HasPending_scroll _ _ _ _ (by simpa using h)] at habs
        simp at habs
      · split
        · rename_i hrep
          rw [if_neg (by simp [hrep])]
        · rename_i hrep
          rw [if_pos ⟨by simpa using hp, by simpa using hrep⟩]

end RW
namespace RW

theorem didInval_pending (s : RWState) (r : Rect)
    (h : s.paint_aggregator.HasPendingUpdate = true) :
    ∃ a, didInvalidateRect s r = ({ s with paint_aggregator := a }, Eff.nil) ∧
      a.HasPendingUpdate = true := by
  rw [didInval_eq]
  split
  · exact ⟨s.paint_aggregator, rfl, h⟩
  · exact ⟨s.paint_aggregator.InvalidateRect ((viewRect s).Intersect r),
      by rw [if_neg (by simp [h])], HasPending_invalidate _ _⟩

theorem runInvals_pending (rs : List Rect) (s : RWState)
    (h : s.paint_aggregator.HasPendingUpdate = true) :
    ∃ a, runInvals rs s = ({ s with paint_aggregator := a }, Eff.nil) ∧
      a.HasPendingUpdate = true := by
  induction rs generalizing s with
  | nil => exact ⟨s.paint_aggregator, rfl, h⟩
  | cons r rest ih =>
    obtain ⟨a1, he, hp1⟩ := didInval_pending s r h
    obtain ⟨a2, he2, hp2⟩ := ih { s with paint_aggregator := a1 } hp1
    refine ⟨a2, ?_, hp2⟩
    simp only [runInvals, he, he2, Eff.nil_add]

theorem gpu_eq (env : UpdEnv) (s : RWState) :
    ∃ lg, gpuActivationStep env s =
        ({ s with is_gpu_rendering_active := env.acceleratedActive },
         effSent lg) ∧
      countUpdateRects lg = 0 ∧ (s.closing = true → lg = []) := by
  simp only [gpuActivationStep]
  split
  · cases hcl : s.closing with
    | true =>
      exact ⟨[], by simp [RWState.Send, effSent], rfl, fun _ => rfl⟩
    | false =>
      exact ⟨[⟨s.routing_id, .gpuRenderingActivated env.acceleratedActive⟩],
        by simp [RWState.Send, effSent], rfl, by simp⟩
  · rename_i heq
    have h2 : env.acceleratedActive = s.is_gpu_rendering_active := by
      simpa using heq
    refine ⟨[], ?_, rfl, fun _ => rfl⟩
    rw [h2]
    rfl

theorem ime_eq (env : UpdEnv) (s : RWState) :
    ∃ li, UpdateInputMethod env s = (s, effSent li) ∧
      countUpdateRects li = 0 ∧ (s.closing = true → li = []) := by
  simp only [UpdateInputMethod]
  split
  · exact ⟨[], rfl, rfl, fun _ => rfl⟩
  · split
    · cases hcl : s.closing with
      | true =>
        exact ⟨[], by simp [RWState.Send, effSent, hcl], rfl, fun _ => rfl⟩
      | false =>
        exact ⟨[⟨s.routing_id, .imeUpdateTextInputState⟩],
          by simp [RWState.Send, effSent, hcl], rfl, by simp [hcl]⟩
    · exact ⟨[], rfl, rfl, fun _ => rfl⟩

end RW
namespace RW

theorem sendPhase_eq (env : UpdEnv) (s : RWState)
    (hp : s.paint_aggregator.HasPendingUpdate = true)
    (ha : env.acquireOk = true) (hc : s.closing = false) :
    ∃ pre post : List Msg,
      countUpdateRects pre = 0 ∧ countUpdateRects post = 0 ∧
      sendPhase env s =
        ({ s with paint_aggregator := PaintAggregator.empty,
                  is_gpu_rendering_active := env.acceleratedActive,
                  current_paint_buf := some env.bufId,
                  plugin_window_moves := [],
                  update_reply_pending := true,
                  next_paint_flags := 0 },
         effSent (pre ++
           ⟨s.routing_id,
            Payload.updateRect (sentParams env s (snapshotAgg env s))⟩ ::
           post)) := by
  obtain ⟨lg, hg, hcg, hclg⟩ := gpu_eq env s
  obtain ⟨a, hr, hap⟩ := runInvals_pending env.layoutInvals
    { s with is_gpu_rendering_active := env.acceleratedActive } hp
  have hsnap : snapshotAgg env s = a := by
    simp [snapshotAgg, layoutState, hg, hr]
  rw [hsnap]
  by_cases him : s.input_method_is_active = true
  · by_cases hch : env.imeChanged = true
    · refine ⟨lg, [⟨s.routing_id, .imeUpdateTextInputState⟩], hcg, rfl, ?_⟩
      simp only [sendPhase, hg, hr]
      rw [if_neg (by simp [ha])]
      simp only [RWState.Send, UpdateInputMethod]
      simp [hc, him, hch, effSent, Eff.add, Eff.nil,
            sentParams, sentBounds, sentBounds0, sentCopyRects,
            PaintAggregator.GetPendingUpdate, PaintAggregator.ClearPendingUpdate]
    · refine ⟨lg, [], hcg, rfl, ?_⟩
      simp only [sendPhase, hg, hr]
      rw [if_neg (by simp [ha])]
      simp only [RWState.Send, UpdateInputMethod]
      simp [hc, him, hch, effSent, Eff.add, Eff.nil,
            sentParams, sentBounds, sentBounds0, sentCopyRects,
            PaintAggregator.GetPendingUpdate, PaintAggregator.ClearPendingUpdate]
  · refine ⟨lg, [], hcg, rfl, ?_⟩
    simp only [sendPhase, hg, hr]
    rw [if_neg (by simp [ha])]
    simp only [RWState.Send, UpdateInputMethod]
    simp [hc, him, effSent, Eff.add, Eff.nil,
          sentParams, sentBounds, sentBounds0, sentCopyRects,
          PaintAggregator.GetPendingUpdate, PaintAggregator.ClearPendingUpdate]

end RW
namespace RW

theorem didInval_shape (s : RWState) (r : Rect) :
    ∃ a e, didInvalidateRect s r = ({ s with paint_aggregator := a }, e) ∧
      e.sent = [] := by
  rw [didInval_eq]
  split
  · exact ⟨s.paint_aggregator, Eff.nil, rfl, rfl⟩
  · refine ⟨_, _, rfl, ?_⟩
    split <;> rfl

theorem runInvals_shape (rs : List Rect) (s : RWState) :
    ∃ a e, runInvals rs s = ({ s with paint_aggregator := a }, e) ∧
      e.sent = [] := by
  induction rs generalizing s with
  | nil => exact ⟨s.paint_aggregator, Eff.nil, rfl, rfl⟩
  | cons r rest ih =>
    obtain ⟨a1, e1, he, hs1⟩ := didInval_shape s r
    obtain ⟨a2, e2, he2, hs2⟩ := ih { s with paint_aggregator := a1 }
    refine ⟨a2, Eff.add e1 e2, ?_, ?_⟩
    · simp only [runInvals, he, he2]
    · simp [Eff.add, hs1, hs2]

theorem sendPhase_closed (env : UpdEnv) (s : RWState)
    (hc : s.closing = true) :
    (sendPhase env s).2.sent = [] ∧ (sendPhase env s).1.closing = true := by
  obtain ⟨lg, hg, hcg, hclg⟩ := gpu_eq env s
  obtain ⟨a, e, hr, hse⟩ := runInvals_shape env.layoutInvals
    { s with is_gpu_rendering_active := env.acceleratedActive }
  simp only [sendPhase, hg, hr]
  split
  · simp [Eff.add, effSent, hse, hclg hc, hc, Eff.nil]
  · simp only [RWState.Send, UpdateInputMethod]
    simp [Eff.add, effSent, hse, hclg hc, hc, Eff.nil]

end RW

namespace RW

theorem countUpdateRects_nil : countUpdateRects [] = 0 := rfl

theorem countUpdateRects_one (m : Msg) :
    countUpdateRects [m] = if m.isUpdateRect then 1 else 0 := by
  rw [countUpdateRects_cons, countUpdateRects_nil]
  simp

theorem sendPhase_shape (env : UpdEnv) (s : RWState) :
    ∃ a b p f pm e,
      sendPhase env s =
        ({ s with paint_aggregator := a,
                  is_gpu_rendering_active := env.acceleratedActive,
                  current_paint_buf := b, update_reply_pending := p,
                  next_paint_flags := f, plugin_window_moves := pm }, e) := by
  obtain ⟨lg, hg, _, _⟩ := gpu_eq env s
  obtain ⟨a, e, hr, _⟩ := runInvals_shape env.layoutInvals
    { s with is_gpu_rendering_active := env.acceleratedActive }
  simp only [sendPhase, hg, hr]
  split
  · exact ⟨_, _, _, _, _, _, rfl⟩
  · simp only [RWState.Send, UpdateInputMethod]
    split
    · exact ⟨_, _, _, _, _, _, rfl⟩
    · split
      · exact ⟨_, _, _, _, _, _, rfl⟩
      · exact ⟨_, _, _, _, _, _, rfl⟩

theorem sendPhase_count (env : UpdEnv) (s : RWState) :
    countUpdateRects (sendPhase env s).2.sent ≤ 1 ∧
      (countUpdateRects (sendPhase env s).2.sent = 0 ∨
       (sendPhase env s).1.update_reply_pending = true) := by
  obtain ⟨lg, hg, hcg, _⟩ := gpu_eq env s
  obtain ⟨a, e, hr, hse⟩ := runInvals_shape env.layoutInvals
    { s with is_gpu_rendering_active := env.acceleratedActive }
  simp only [sendPhase, hg, hr]
  split
  · constructor
    · simp only [Eff.add, effSent]
      simp [countUpdateRects_append, hcg, hse, countUpdateRects_nil]
    · left
      simp only [Eff.add, effSent]
      simp [countUpdateRects_append, hcg, hse, countUpdateRects_nil]
  · simp only [RWState.Send, UpdateInputMethod]
    refine ⟨?_, Or.inr ?_⟩
    · simp only [Eff.add, effSent, hse]
      split_ifs <;>
        simp [countUpdateRects_append, hcg, countUpdateRects_nil,
          countUpdateRects_one, countUpdateRects_cons, Msg.isUpdateRect,
          Eff.nil]
    · split
      · rfl
      · split
        · rfl
        · rfl

end RW
namespace RW

theorem sendPhase_fail (env : UpdEnv) (s : RWState)
    (ha : env.acquireOk = false) :
    ∃ e, sendPhase env s =
        ({ s with paint_aggregator := PaintAggregator.empty,
                  is_gpu_rendering_active := env.acceleratedActive }, e) ∧
      countUpdateRects e.sent = 0 := by
  obtain ⟨lg, hg, hcg, _⟩ := gpu_eq env s
  obtain ⟨a, e, hr, hse⟩ := runInvals_shape env.layoutInvals
    { s with is_gpu_rendering_active := env.acceleratedActive }
  simp only [sendPhase, hg, hr]
  rw [if_pos (by simp [ha])]
  refine ⟨_, rfl, ?_⟩
  simp only [Eff.add, effSent]
  simp [countUpdateRects_append, hcg, hse, countUpdateRects_nil]

theorem DDU_guard (env : UpdEnv) (s : RWState)
    (h : s.webwidget = false ∨ s.paint_aggregator.HasPendingUpdate = false ∨
      s.update_reply_pending = true) :
    DoDeferredUpdate env s = (s, Eff.nil) := by
  rcases h with h | h | h <;> simp [DoDeferredUpdate, h]

theorem DDU_hiddenOrEmpty (env : UpdEnv) (s : RWState)
    (hw : s.webwidget = true)
    (hp : s.paint_aggregator.HasPendingUpdate = true)
    (hr : s.update_reply_pending = false)
    (hh : s.is_hidden = true ∨ s.size.IsEmpty = true) :
    DoDeferredUpdate env s =
      ({ s with paint_aggregator := PaintAggregator.empty,
                needs_repainting_on_restore := true }, Eff.nil) := by
  have h2 : (s.is_hidden || s.size.IsEmpty) = true := by
    rcases hh with h | h <;> simp [h]
  simp [DoDeferredUpdate, hw, hp, hr, h2, PaintAggregator.ClearPendingUpdate]

theorem DDU_send (env : UpdEnv) (s : RWState)
    (hw : s.webwidget = true)
    (hp : s.paint_aggregator.HasPendingUpdate = true)
    (hr : s.update_reply_pending = false)
    (hh : s.is_hidden = false) (hs : s.size.IsEmpty = false) :
    DoDeferredUpdate env s = sendPhase env s := by
  simp [DoDeferredUpdate, hw, hp, hr, hh, hs]

theorem DDU_shape (env : UpdEnv) (s : RWState) :
    ∃ a g b p f pm n e,
      DoDeferredUpdate env s =
        ({ s with paint_aggregator := a, is_gpu_rendering_active := g,
                  current_paint_buf := b, update_reply_pending := p,
                  next_paint_flags := f, plugin_window_moves := pm,
                  needs_repainting_on_restore := n }, e) := by
  simp only [DoDeferredUpdate]
  split
  · exact ⟨_, _, _, _, _, _, _, _, rfl⟩
  · split
    · exact ⟨_, _, _, _, _, _, _, _, rfl⟩
    · obtain ⟨a, b, p, f, pm, e, hsp⟩ := sendPhase_shape env s
      exact ⟨a, env.acceleratedActive, b, p, f, pm,
        s.needs_repainting_on_restore, e, hsp⟩

theorem DDU_closed (env : UpdEnv) (s : RWState) (h : s.closing = true) :
    (DoDeferredUpdate env s).2.sent = [] ∧
      (DoDeferredUpdate env s).1.closing = true := by
  simp only [DoDeferredUpdate]
  split
  · exact ⟨rfl, h⟩
  · split
    · exact ⟨rfl, h⟩
    · exact sendPhase_closed env s h

theorem DDU_count (env : UpdEnv) (s : RWState) :
    countUpdateRects (DoDeferredUpdate env s).2.sent ≤ 1 ∧
      (countUpdateRects (DoDeferredUpdate env s).2.sent = 0 ∨
       (DoDeferredUpdate env s).1.update_reply_pending = true) := by
  simp only [DoDeferredUpdate]
  split
  · exact ⟨by simp [countUpdateRects_nil, Eff.nil], Or.inl (by simp [countUpdateRects_nil, Eff.nil])⟩
  · split
    · exact ⟨by simp [countUpdateRects_nil, Eff.nil], Or.inl (by simp [countUpdateRects_nil, Eff.nil])⟩
    · exact sendPhase_count env s

end RW
namespace RW

theorem CallDDU_shape (env : UpdEnv) (s : RWState) :
    ∃ a g b p f pm n sl e,
      CallDoDeferredUpdate env s =
        ({ s with paint_aggregator := a, is_gpu_rendering_active := g,
                  current_paint_buf := b, update_reply_pending := p,
                  next_paint_flags := f, plugin_window_moves := pm,
                  needs_repainting_on_restore := n,
                  pending_input_event_ack := sl }, e) := by
  obtain ⟨a, g, b, p, f, pm, n, e, hd⟩ := DDU_shape env s
  cases hsl : s.pending_input_event_ack with
  | none =>
    refine ⟨a, g, b, p, f, pm, n, none, e, ?_⟩
    simp only [CallDoDeferredUpdate, hd, hsl]
  | some x =>
    simp only [CallDoDeferredUpdate, hd, hsl]
    exact ⟨a, g, b, p, f, pm, n, none, _, rfl⟩

theorem CallDDU_closed (env : UpdEnv) (s : RWState) (h : s.closing = true) :
    (CallDoDeferredUpdate env s).2.sent = [] ∧
      (CallDoDeferredUpdate env s).1.closing = true := by
  obtain ⟨hds, hdc⟩ := DDU_closed env s h
  simp only [CallDoDeferredUpdate]
  cases hsl : (DoDeferredUpdate env s).1.pending_input_event_ack with
  | none => exact ⟨hds, hdc⟩
  | some x =>
    constructor
    · simp [Eff.add, effSent, hds, RWState.Send, hdc]
    · simpa using hdc

theorem CallDDU_count (env : UpdEnv) (s : RWState) :
    countUpdateRects (CallDoDeferredUpdate env s).2.sent ≤ 1 ∧
      (countUpdateRects (CallDoDeferredUpdate env s).2.sent = 0 ∨
       (CallDoDeferredUpdate env s).1.update_reply_pending = true) := by
  obtain ⟨h1, h2⟩ := DDU_count env s
  simp only [CallDoDeferredUpdate]
  cases hsl : (DoDeferredUpdate env s).1.pending_input_event_ack with
  | none => exact ⟨h1, h2⟩
  | some x =>
    constructor
    · simp [Eff.add, effSent, countUpdateRects_append,
        countUpdateRects_Send_ack, h1]
    · rcases h2 with h2 | h2
      · left
        simp [Eff.add, effSent, countUpdateRects_append,
          countUpdateRects_Send_ack, h2]
      · right
        simpa using h2

end RW
namespace RW

theorem didScroll_shape (s : RWState) (dx dy : Int) (clip : Rect) :
    ∃ a e, didScrollRect s dx dy clip =
      ({ s with paint_aggregator := a }, e) ∧ e.sent = [] := by
  rw [didScroll_eq]
  split
  · exact ⟨s.paint_aggregator, Eff.nil, rfl, rfl⟩
  · refine ⟨_, _, rfl, ?_⟩
    split <;> rfl

theorem didInval_mini (s : RWState) (r : Rect) :
    (didInvalidateRect s r).2.sent = [] ∧
      (didInvalidateRect s r).1.closing = s.closing ∧
      (didInvalidateRect s r).1.update_reply_pending =
        s.update_reply_pending ∧
      (didInvalidateRect s r).1.next_paint_flags = s.next_paint_flags := by
  obtain ⟨a, e, hi, hs⟩ := didInval_shape s r
  rw [hi]
  exact ⟨hs, rfl, rfl, rfl⟩

theorem didScroll_mini (s : RWState) (dx dy : Int) (clip : Rect) :
    (didScrollRect s dx dy clip).2.sent = [] ∧
      (didScrollRect s dx dy clip).1.closing = s.closing ∧
      (didScrollRect s dx dy clip).1.update_reply_pending =
        s.update_reply_pending ∧
      (didScrollRect s dx dy clip).1.next_paint_flags =
        s.next_paint_flags := by
  obtain ⟨a, e, hi, hs⟩ := didScroll_shape s dx dy clip
  rw [hi]
  exact ⟨hs, rfl, rfl, rfl⟩

theorem ack_closed (env : UpdEnv) (s : RWState) (h : s.closing = true) :
    (OnUpdateRectAck env s).2.sent = [] ∧
      (OnUpdateRectAck env s).1.closing = true := by
  simp only [OnUpdateRectAck]
  cases hb : s.current_paint_buf with
  | some x =>
    obtain ⟨h1, h2⟩ := CallDDU_closed env
      { s with update_reply_pending := false, current_paint_buf := none } h
    simp only [hb]
    exact ⟨by simp [Eff.add, effSent, h1, Eff.nil], h2⟩
  | none =>
    obtain ⟨h1, h2⟩ := CallDDU_closed env
      { s with update_reply_pending := false, current_paint_buf := none } h
    simp only [hb]
    exact ⟨h1, h2⟩

theorem input_closed (env : InputEnv) (s : RWState) (h : s.closing = true) :
    (OnHandleInputEvent env s).2.sent = [] ∧
      (OnHandleInputEvent env s).1.closing = true := by
  simp only [OnHandleInputEvent]
  split
  · exact ⟨rfl, h⟩
  · cases hsl : s.pending_input_event_ack <;>
      split_ifs <;>
        simp [RWState.Send, h, hsl, effSent, Eff.nil]

end RW
namespace RW

theorem didInval_sent2 (s : RWState) (r : Rect) :
    (didInvalidateRect s r).2.sent = [] := (didInval_mini s r).1

theorem didInval_closing (s : RWState) (r : Rect) :
    (didInvalidateRect s r).1.closing = s.closing := (didInval_mini s r).2.1

theorem didInval_reply (s : RWState) (r : Rect) :
    (didInvalidateRect s r).1.update_reply_pending =
      s.update_reply_pending := (didInval_mini s r).2.2.1

theorem didInval_flags (s : RWState) (r : Rect) :
    (didInvalidateRect s r).1.next_paint_flags = s.next_paint_flags :=
  (didInval_mini s r).2.2.2

theorem didScroll_sent2 (s : RWState) (dx dy : Int) (clip : Rect) :
    (didScrollRect s dx dy clip).2.sent = [] :=
  (didScroll_mini s dx dy clip).1

theorem didScroll_closing (s : RWState) (dx dy : Int) (clip : Rect) :
    (didScrollRect s dx dy clip).1.closing = s.closing :=
  (didScroll_mini s dx dy clip).2.1

theorem didScroll_reply (s : RWState) (dx dy : Int) (clip : Rect) :
    (didScrollRect s dx dy clip).1.update_reply_pending =
      s.update_reply_pending := (didScroll_mini s dx dy clip).2.2.1

theorem didScroll_flags (s : RWState) (dx dy : Int) (clip : Rect) :
    (didScrollRect s dx dy clip).1.next_paint_flags = s.next_paint_flags :=
  (didScroll_mini s dx dy clip).2.2.2

theorem step_closed (op : Op) (s : RWState) (h : s.closing = true) :
    (step op s).2.sent = [] ∧ (step op s).1.closing = true := by
  cases op with
  | close =>
    simp only [step, OnClose]
    split_ifs <;> simp [Eff.nil, h]
  | resize n r =>
    simp only [step, OnResize]
    split
    · exact ⟨rfl, h⟩
    · split <;> simp [didInval_sent2, didInval_closing, h]
  | wasHidden => exact ⟨rfl, h⟩
  | wasRestored b =>
    simp only [step, OnWasRestored]
    split
    · exact ⟨rfl, h⟩
    · split
      · exact ⟨rfl, h⟩
      · simp [didInval_sent2, didInval_closing, h]
  | updateRectAck env => exact ack_closed env s h
  | handleInputEvent env => exact input_closed env s h
  | invalidateRect r =>
    simp only [step]
    simp [didInval_sent2, didInval_closing, h]
  | scrollRect dx dy clip =>
    simp only [step]
    simp [didScroll_sent2, didScroll_closing, h]
  | deferredUpdateTask env => exact CallDDU_closed env s h
  | msgRepaint sz =>
    simp only [step, OnMsgRepaint]
    split
    · exact ⟨rfl, h⟩
    · simp [didInval_sent2, didInval_closing, h]

theorem run_closed (ops : List Op) (s : RWState) (h : s.closing = true) :
    (run ops s).2.sent = [] ∧ (run ops s).1.closing = true := by
  induction ops generalizing s with
  | nil => exact ⟨rfl, h⟩
  | cons op rest ih =>
    obtain ⟨h1, h2⟩ := step_closed op s h
    obtain ⟨h3, h4⟩ := ih (step op s).1 h2
    constructor
    · simp [run, Eff.add, h1, h3]
    · simp [run, h4]

end RW
namespace RW

theorem input_count (env : InputEnv) (s : RWState) :
    countUpdateRects (OnHandleInputEvent env s).2.sent = 0 ∧
      (OnHandleInputEvent env s).1.update_reply_pending =
        s.update_reply_pending ∧
      (OnHandleInputEvent env s).1.next_paint_flags = s.next_paint_flags := by
  simp only [OnHandleInputEvent]
  split
  · exact ⟨rfl, rfl, rfl⟩
  · cases hsl : s.pending_input_event_ack <;> split_ifs <;>
      simp [hsl, effSent, Eff.nil, countUpdateRects_Send_ack,
        countUpdateRects_nil]

theorem ack_count (env : UpdEnv) (s : RWState) :
    countUpdateRects (OnUpdateRectAck env s).2.sent ≤ 1 ∧
      (countUpdateRects (OnUpdateRectAck env s).2.sent = 0 ∨
       (OnUpdateRectAck env s).1.update_reply_pending = true) := by
  simp only [OnUpdateRectAck]
  cases hb : s.current_paint_buf with
  | some x =>
    obtain ⟨h1, h2⟩ := CallDDU_count env
      { s with update_reply_pending := false, current_paint_buf := none }
    constructor
    · simpa [Eff.add, Eff.nil, countUpdateRects_append,
        countUpdateRects_nil] using h1
    · rcases h2 with h2 | h2
      · left
        simpa [Eff.add, Eff.nil, countUpdateRects_append,
          countUpdateRects_nil] using h2
      · right
        simpa using h2
  | none =>
    obtain ⟨h1, h2⟩ := CallDDU_count env
      { s with update_reply_pending := false, current_paint_buf := none }
    exact ⟨h1, h2⟩

theorem step_count (op : Op) (s : RWState) :
    countUpdateRects (step op s).2.sent ≤ 1 ∧
      (countUpdateRects (step op s).2.sent = 0 ∨
       (step op s).1.update_reply_pending = true) := by
  cases op with
  | close =>
    simp only [step, OnClose]
    split_ifs <;> simp [Eff.nil, countUpdateRects_nil]
  | resize n r =>
    simp only [step, OnResize]
    split
    · simp [Eff.nil, countUpdateRects_nil]
    · split <;> simp [didInval_sent2, countUpdateRects_nil]
  | wasHidden => simp [step, OnWasHidden, Eff.nil, countUpdateRects_nil]
  | wasRestored b =>
    simp only [step, OnWasRestored]
    split
    · simp [Eff.nil, countUpdateRects_nil]
    · split
      · simp [Eff.nil, countUpdateRects_nil]
      · simp [didInval_sent2, countUpdateRects_nil]
  | updateRectAck env => exact ack_count env s
  | handleInputEvent env =>
    have h := (input_count env s).1
    simp only [step]
    exact ⟨by simp [h], Or.inl h⟩
  | invalidateRect r =>
    simp only [step]
    simp [didInval_sent2, countUpdateRects_nil]
  | scrollRect dx dy clip =>
    simp only [step]
    simp [didScroll_sent2, countUpdateRects_nil]
  | deferredUpdateTask env => exact CallDDU_count env s
  | msgRepaint sz =>
    simp only [step, OnMsgRepaint]
    split
    · simp [Eff.nil, countUpdateRects_nil]
    · simp [didInval_sent2, countUpdateRects_nil]

end RW
namespace RW

theorem step_reply (op : Op) (s : RWState)
    (h : s.update_reply_pending = true)
    (hop : op.isUpdateRectAck = false) :
    countUpdateRects (step op s).2.sent = 0 ∧
      (step op s).1.update_reply_pending = true := by
  cases op with
  | close =>
    simp only [step, OnClose]
    split_ifs <;> simp [Eff.nil, countUpdateRects_nil, h]
  | resize n r =>
    simp only [step, OnResize]
    split
    · simp [Eff.nil, countUpdateRects_nil, h]
    · split <;>
        simp [didInval_sent2, didInval_reply, countUpdateRects_nil, h]
  | wasHidden => simp [step, OnWasHidden, Eff.nil, countUpdateRects_nil, h]
  | wasRestored b =>
    simp only [step, OnWasRestored]
    split
    · simp [Eff.nil, countUpdateRects_nil, h]
    · split
      · simp [Eff.nil, countUpdateRects_nil, h]
      · simp [didInval_sent2, didInval_reply, countUpdateRects_nil, h]
  | updateRectAck env => simp [Op.isUpdateRectAck] at hop
  | handleInputEvent env =>
    obtain ⟨h1, h2, _⟩ := input_count env s
    simp only [step]
    exact ⟨h1, h2.trans h⟩
  | invalidateRect r =>
    simp only [step]
    simp [didInval_sent2, didInval_reply, countUpdateRects_nil, h]
  | scrollRect dx dy clip =>
    simp only [step]
    simp [didScroll_sent2, didScroll_reply, countUpdateRects_nil, h]
  | deferredUpdateTask env =>
    have hd : DoDeferredUpdate env s = (s, Eff.nil) :=
      DDU_guard env s (Or.inr (Or.inr h))
    simp only [step, CallDoDeferredUpdate, hd]
    cases hsl : s.pending_input_event_ack with
    | none => exact ⟨rfl, h⟩
    | some x =>
      constructor
      · simp [Eff.add, Eff.nil, effSent, countUpdateRects_append,
          countUpdateRects_nil, countUpdateRects_Send_ack]
      · exact h
  | msgRepaint sz =>
    simp only [step, OnMsgRepaint]
    split
    · simp [Eff.nil, countUpdateRects_nil, h]
    · simp [didInval_sent2, didInval_reply, countUpdateRects_nil, h]

theorem run_reply (ops : List Op) (s : RWState)
    (h : s.update_reply_pending = true)
    (hops : ∀ op ∈ ops, op.isUpdateRectAck = false) :
    countUpdateRects (run ops s).2.sent = 0 ∧
      (run ops s).1.update_reply_pending = true := by
  induction ops generalizing s with
  | nil => exact ⟨rfl, h⟩
  | cons op rest ih =>
    obtain ⟨h1, h2⟩ := step_reply op s h (hops op (by simp))
    obtain ⟨h3, h4⟩ := ih (step op s).1 h2 (fun o ho => hops o (by simp [ho]))
    constructor
    · simp [run, Eff.add, countUpdateRects_append, h1, h3]
    · simp [run, h4]

end RW
namespace RW

theorem resizeAckBit_eq_mod (f : Nat) :
    resizeAckBit f = decide (f % 2 = 1) := by
  rw [resizeAckBit, IS_RESIZE_ACK, Nat.and_one_is_mod]
  rcases Nat.mod_two_eq_zero_or_one f with h | h <;> simp [h]

theorem resizeAckBit_lor (f c : Nat) :
    resizeAckBit (f ||| c) = (resizeAckBit f || resizeAckBit c) := by
  have h := Nat.testBit_lor f c 0
  simp only [Nat.testBit_zero] at h
  simp [resizeAckBit_eq_mod, h]

end RW
namespace RW

theorem DDU_flag (env : UpdEnv) (s : RWState) (hc : s.closing = false)
    (hbit : resizeAckBit s.next_paint_flags = true) :
    (firstUpdateRect (DoDeferredUpdate env s).2.sent = none ∧
       resizeAckBit (DoDeferredUpdate env s).1.next_paint_flags = true) ∨
    (∃ p, firstUpdateRect (DoDeferredUpdate env s).2.sent = some p ∧
       resizeAckBit p.flags = true) := by
  simp only [DoDeferredUpdate]
  split
  · exact Or.inl ⟨rfl, hbit⟩
  · split
    · exact Or.inl ⟨rfl, hbit⟩
    · rename_i hg1 hg2
      have hp2 : s.paint_aggregator.HasPendingUpdate = true := by
        cases hx : s.paint_aggregator.HasPendingUpdate
        · exact absurd (by simp [hx]) hg1
        · rfl
      by_cases hacq : env.acquireOk = true
      · obtain ⟨pre, post, hpre, hpost, hsp⟩ :=
          sendPhase_eq env s hp2 hacq hc
        rw [hsp]
        right
        refine ⟨sentParams env s (snapshotAgg env s), ?_, ?_⟩
        · simp [effSent, firstUpdateRect_append,
            firstUpdateRect_of_count_zero _ hpre, firstUpdateRect]
        · simpa [sentParams] using hbit
      · have hacq2 : env.acquireOk = false := by simpa using hacq
        obtain ⟨e, hsp, hcount⟩ := sendPhase_fail env s hacq2
        rw [hsp]
        exact Or.inl ⟨firstUpdateRect_of_count_zero _ hcount, hbit⟩

theorem CallDDU_flag (env : UpdEnv) (s : RWState) (hc : s.closing = false)
    (hbit : resizeAckBit s.next_paint_flags = true) :
    (firstUpdateRect (CallDoDeferredUpdate env s).2.sent = none ∧
       resizeAckBit (CallDoDeferredUpdate env s).1.next_paint_flags =
         true) ∨
    (∃ p, firstUpdateRect (CallDoDeferredUpdate env s).2.sent = some p ∧
       resizeAckBit p.flags = true) := by
  have H := DDU_flag env s hc hbit
  simp only [CallDoDeferredUpdate]
  cases hsl : (DoDeferredUpdate env s).1.pending_input_event_ack with
  | none => exact H
  | some x =>
    rcases H with ⟨h1, h2⟩ | ⟨p, h1, h2⟩
    · left
      constructor
      · simp [Eff.add, effSent, firstUpdateRect_append, h1,
          firstUpdateRect_of_count_zero _ (countUpdateRects_Send_ack _ _)]
      · exact h2
    · right
      exact ⟨p, by simp [Eff.add, effSent, firstUpdateRect_append, h1], h2⟩

theorem ack_flag (env : UpdEnv) (s : RWState) (hc : s.closing = false)
    (hbit : resizeAckBit s.next_paint_flags = true) :
    (firstUpdateRect (OnUpdateRectAck env s).2.sent = none ∧
       resizeAckBit (OnUpdateRectAck env s).1.next_paint_flags = true) ∨
    (∃ p, firstUpdateRect (OnUpdateRectAck env s).2.sent = some p ∧
       resizeAckBit p.flags = true) := by
  simp only [OnUpdateRectAck]
  cases hb : s.current_paint_buf with
  | some x =>
    have H := CallDDU_flag env
      { s with update_reply_pending := false, current_paint_buf := none }
      hc hbit
    rcases H with ⟨h1, h2⟩ | ⟨p, h1, h2⟩
    · left
      exact ⟨by simp [Eff.add, Eff.nil, h1], h2⟩
    · right
      exact ⟨p, by simp [Eff.add, Eff.nil, firstUpdateRect_append, h1], h2⟩
  | none =>
    exact CallDDU_flag env
      { s with update_reply_pending := false, current_paint_buf := none }
      hc hbit

theorem step_flag (op : Op) (s : RWState) (hc : s.closing = false)
    (hbit : resizeAckBit s.next_paint_flags = true) :
    (firstUpdateRect (step op s).2.sent = none ∧
       (resizeAckBit (step op s).1.next_paint_flags = true ∨
        (step op s).1.closing = true)) ∨
    (∃ p, firstUpdateRect (step op s).2.sent = some p ∧
       resizeAckBit p.flags = true) := by
  cases op with
  | close =>
    simp only [step, OnClose]
    split_ifs <;> left <;>
      exact ⟨by simp [Eff.nil, firstUpdateRect], Or.inl hbit⟩
  | resize n r =>
    simp only [step, OnResize]
    split
    · exact Or.inl ⟨rfl, Or.inl hbit⟩
    · split <;> left <;>
        refine ⟨by simp [didInval_sent2, firstUpdateRect], Or.inl ?_⟩ <;>
        simp [resizeAckBit_lor, didInval_flags, hbit]
  | wasHidden => exact Or.inl ⟨rfl, Or.inl hbit⟩
  | wasRestored b =>
    simp only [step, OnWasRestored]
    split
    · exact Or.inl ⟨rfl, Or.inl hbit⟩
    · split
      · exact Or.inl ⟨rfl, Or.inl hbit⟩
      · left
        refine ⟨by simp [didInval_sent2, firstUpdateRect], Or.inl ?_⟩
        simp [resizeAckBit_lor, didInval_flags, hbit]
  | updateRectAck env =>
    have H := ack_flag env s hc hbit
    simp only [step]
    rcases H with ⟨h1, h2⟩ | H2
    · exact Or.inl ⟨h1, Or.inl h2⟩
    · exact Or.inr H2
  | handleInputEvent env =>
    obtain ⟨h1, _, h3⟩ := input_count env s
    simp only [step]
    exact Or.inl ⟨firstUpdateRect_of_count_zero _ h1,
      Or.inl (by rw [h3]; exact hbit)⟩
  | invalidateRect r =>
    simp only [step]
    exact Or.inl ⟨by simp [didInval_sent2, firstUpdateRect],
      Or.inl (by rw [didInval_flags]; exact hbit)⟩
  | scrollRect dx dy clip =>
    simp only [step]
    exact Or.inl ⟨by simp [didScroll_sent2, firstUpdateRect],
      Or.inl (by rw [didScroll_flags]; exact hbit)⟩
  | deferredUpdateTask env =>
    have H := CallDDU_flag env s hc hbit
    simp only [step]
    rcases H with ⟨h1, h2⟩ | H2
    · exact Or.inl ⟨h1, Or.inl h2⟩
    · exact Or.inr H2
  | msgRepaint sz =>
    simp only [step, OnMsgRepaint]
    split
    · exact Or.inl ⟨rfl, Or.inl hbit⟩
    · left
      refine ⟨by simp [didInval_sent2, firstUpdateRect], Or.inl ?_⟩
      simp [resizeAckBit_lor, didInval_flags, hbit]

theorem run_flag (ops : List Op) (s : RWState)
    (hQ : resizeAckBit s.next_paint_flags = true ∨ s.closing = true) :
    firstUpdateRect (run ops s).2.sent = none ∨
    (∃ p, firstUpdateRect (run ops s).2.sent = some p ∧
       resizeAckBit p.flags = true) := by
  induction ops generalizing s with
  | nil => exact Or.inl rfl
  | cons op rest ih =>
    rcases hQ with hbit | hclose
    · by_cases hc : s.closing = true
      · obtain ⟨h1, _⟩ := run_closed (op :: rest) s hc
        exact Or.inl (by simp [h1, firstUpdateRect])
      · have hc2 : s.closing = false := by simpa using hc
        rcases step_flag op s hc2 hbit with ⟨h1, h2⟩ | ⟨p, h1, h2⟩
        · rcases ih (step op s).1 h2 with h3 | ⟨p, h3, h4⟩
          · left
            simp [run, Eff.add, firstUpdateRect_append, h1, h3]
          · right
            exact ⟨p,
              by simp [run, Eff.add, firstUpdateRect_append, h1, h3], h4⟩
        · right
          exact ⟨p, by simp [run, Eff.add, firstUpdateRect_append, h1], h2⟩
    · obtain ⟨h1, _⟩ := run_closed (op :: rest) s hclose
      exact Or.inl (by simp [h1, firstUpdateRect])

end RW
namespace RW

/-- C3: DoDeferredUpdate is a no-op (state unchanged, nothing sent, no
effects) when nothing is pending or an update reply is pending; and
when the widget is hidden or its size is empty (with a live webwidget,
damage pending and no update in flight) it discards the pending update
and sets needs_repainting_on_restore_, sending nothing. -/
theorem c3_flush_preconditions :
    (∀ (env : UpdEnv) (s : RWState),
       (s.paint_aggregator.HasPendingUpdate = false ∨
        s.update_reply_pending = true) →
       DoDeferredUpdate env s = (s, Eff.nil)) ∧
    (∀ (env : UpdEnv) (s : RWState),
       s.webwidget = true →
       s.paint_aggregator.HasPendingUpdate = true →
       s.update_reply_pending = false →
       (s.is_hidden = true ∨ s.size.IsEmpty = true) →
       DoDeferredUpdate env s =
         ({ s with paint_aggregator := PaintAggregator.empty,
                   needs_repainting_on_restore := true }, Eff.nil)) :=
  ⟨fun env s h => DDU_guard env s (Or.inr h),
   fun env s hw hp hr hh => DDU_hiddenOrEmpty env s hw hp hr hh⟩

theorem c3_flush_preconditions_witness :
    (baseS.paint_aggregator.HasPendingUpdate = false ∧
     DoDeferredUpdate okEnv baseS = (baseS, Eff.nil)) ∧
    (let s := { baseS with
        paint_aggregator := PaintAggregator.empty.InvalidateRect
          ⟨0, 0, 5, 5⟩,
        is_hidden := true }
     DoDeferredUpdate okEnv s =
       ({ s with paint_aggregator := PaintAggregator.empty,
                 needs_repainting_on_restore := true }, Eff.nil)) :=
  ⟨⟨by decide,
    c3_flush_preconditions.1 okEnv baseS (Or.inl (by decide))⟩,
   c3_flush_preconditions.2 okEnv _ (by decide) (by decide) (by decide)
     (Or.inl (by decide))⟩

/-- C7: OnClose is idempotent — with closing_ already set it is a
complete no-op; from a live registered state, two consecutive calls
remove the route once, post the deferred teardown task once and
release the reference once; and closing_ is one-way: no operation ever
resets it. -/
theorem c7_close_idempotent :
    (∀ s : RWState, s.closing = true → OnClose s = (s, Eff.nil)) ∧
    (∀ s : RWState, s.closing = false →
       s.routing_id ≠ MSG_ROUTING_NONE →
       Eff.add (OnClose s).2 (OnClose (OnClose s).1).2 =
         { Eff.nil with closeTasks := 1, routeRemovals := 1,
                        refReleases := 1 } ∧
       (OnClose (OnClose s).1).1 = (OnClose s).1) ∧
    (∀ (op : Op) (s : RWState), s.closing = true →
       (step op s).1.closing = true) := by
  refine ⟨fun s h => by simp [OnClose, h], fun s h hr => ?_,
    fun op s h => (step_closed op s h).2⟩
  simp [OnClose, h, hr, Eff.add, Eff.nil]

theorem c7_close_idempotent_witness :
    (Eff.add (OnClose baseS).2 (OnClose (OnClose baseS).1).2 =
       { Eff.nil with closeTasks := 1, routeRemovals := 1,
                      refReleases := 1 } ∧
     (OnClose (OnClose baseS).1).1 = (OnClose baseS).1) ∧
    (step Op.close (OnClose baseS).1).1.closing = true :=
  ⟨c7_close_idempotent.2.1 baseS (by decide) (by decide),
   c7_close_idempotent.2.2 Op.close (OnClose baseS).1 (by decide)⟩

/-- C8: didInvalidateRect and didScrollRect clip against the view
bounds; an empty clip leaves everything unchanged and posts nothing;
a non-empty clip forwards the clipped rect to the aggregator, sends no
message, and posts exactly one deferred-update task iff no update was
pending before the call and no update reply is pending. -/
theorem c8_invalidate_clip_schedule :
    (∀ (s : RWState) (r : Rect),
       ((viewRect s).Intersect r).IsEmpty = true →
       didInvalidateRect s r = (s, Eff.nil)) ∧
    (∀ (s : RWState) (r : Rect),
       ((viewRect s).Intersect r).IsEmpty = false →
       didInvalidateRect s r =
         ({ s with paint_aggregator := s.paint_aggregator.InvalidateRect ((viewRect s).Intersect r) },
          if s.paint_aggregator.HasPendingUpdate = false ∧
              s.update_reply_pending = false then
            { Eff.nil with updateTasks := 1 }
          else Eff.nil)) ∧
    (∀ (s : RWState) (dx dy : Int) (clip : Rect),
       ((viewRect s).Intersect clip).IsEmpty = true →
       didScrollRect s dx dy clip = (s, Eff.nil)) ∧
    (∀ (s : RWState) (dx dy : Int) (clip : Rect),
       ((viewRect s).Intersect clip).IsEmpty = false →
       didScrollRect s dx dy clip =
         ({ s with paint_aggregator := s.paint_aggregator.ScrollRect dx dy ((viewRect s).Intersect clip) },
          if s.paint_aggregator.HasPendingUpdate = false ∧
              s.update_reply_pending = false then
            { Eff.nil with updateTasks := 1 }
          else Eff.nil)) := by
  refine ⟨fun s r h => ?_, fun s r h => ?_, fun s dx dy c h => ?_,
    fun s dx dy c h => ?_⟩
  · rw [didInval_eq, if_pos h]
  · rw [didInval_eq, if_neg (by simp [h])]
  · rw [didScroll_eq, if_pos h]
  · rw [didScroll_eq, if_neg (by simp [h])]

theorem c8_invalidate_clip_schedule_witness :
    (didInvalidateRect baseS ⟨900, 700, 10, 10⟩ = (baseS, Eff.nil)) ∧
    (didInvalidateRect baseS ⟨0, 0, 10, 10⟩ =
       ({ baseS with paint_aggregator :=
            baseS.paint_aggregator.InvalidateRect ⟨0, 0, 10, 10⟩ },
        { Eff.nil with updateTasks := 1 })) ∧
    (didScrollRect baseS 5 0 ⟨0, 0, 10, 10⟩ =
       ({ baseS with paint_aggregator :=
            baseS.paint_aggregator.ScrollRect 5 0 ⟨0, 0, 10, 10⟩ },
        { Eff.nil with updateTasks := 1 })) := by
  refine ⟨c8_invalidate_clip_schedule.1 baseS _ (by decide), ?_, ?_⟩
  · have h := c8_invalidate_clip_schedule.2.1 baseS ⟨0, 0, 10, 10⟩
      (by decide)
    rw [h]
    simp only [show (viewRect baseS).Intersect ⟨0, 0, 10, 10⟩ =
      ⟨0, 0, 10, 10⟩ from by decide]
    rw [if_pos ⟨by decide, by decide⟩]
  · have h := c8_invalidate_clip_schedule.2.2.2 baseS 5 0 ⟨0, 0, 10, 10⟩
      (by decide)
    rw [h]
    simp only [show (viewRect baseS).Intersect ⟨0, 0, 10, 10⟩ =
      ⟨0, 0, 10, 10⟩ from by decide]
    rw [if_pos ⟨by decide, by decide⟩]

/-- C10: once closing_ is set, Send deletes the message and returns
false, so no message of any kind is forwarded by any subsequent
operation; and Send stamps the widget's routing id onto a message sent
with no routing id. -/
theorem c10_send_after_close :
    (∀ (s : RWState) (m : Msg), s.closing = true →
       s.Send m = (false, [])) ∧
    (∀ (s : RWState) (m : Msg), s.closing = false →
       m.routing_id = MSG_ROUTING_NONE →
       s.Send m = (true, [{ m with routing_id := s.routing_id }])) ∧
    (∀ (s : RWState) (ops : List Op), s.closing = true →
       (run ops s).2.sent = []) := by
  refine ⟨fun s m h => Send_closing s m h, fun s m h hm => ?_,
    fun s ops h => (run_closed ops s h).1⟩
  simp [RWState.Send, h, hm]

theorem c10_send_after_close_witness :
    ((OnClose baseS).1.Send ⟨MSG_ROUTING_NONE, Payload.generic 3⟩ =
       (false, [])) ∧
    (baseS.Send ⟨MSG_ROUTING_NONE, Payload.generic 3⟩ =
       (true, [⟨baseS.routing_id, Payload.generic 3⟩])) ∧
    ((run [Op.invalidateRect ⟨0, 0, 10, 10⟩,
           Op.deferredUpdateTask okEnv] (OnClose baseS).1).2.sent = []) :=
  ⟨c10_send_after_close.1 (OnClose baseS).1 _ (by decide),
   c10_send_after_close.2.1 baseS _ (by decide) (by decide),
   c10_send_after_close.2.2 (OnClose baseS).1 _ (by decide)⟩

end RW
namespace RW

/-- C1: single-flight — starting from any state with an update reply
pending, any sequence of operations that contains no OnUpdateRectAck
forwards no ViewHostMsg_UpdateRect at all and leaves the reply
pending; moreover every single operation forwards at most one
ViewHostMsg_UpdateRect, and whenever it forwards one the widget is in
the in-flight state afterwards. -/
theorem c1_single_flight :
    (∀ (s : RWState) (ops : List Op),
       s.update_reply_pending = true →
       (∀ op ∈ ops, op.isUpdateRectAck = false) →
       countUpdateRects (run ops s).2.sent = 0 ∧
         (run ops s).1.update_reply_pending = true) ∧
    (∀ (op : Op) (s : RWState),
       countUpdateRects (step op s).2.sent ≤ 1 ∧
         (countUpdateRects (step op s).2.sent = 0 ∨
          (step op s).1.update_reply_pending = true)) :=
  ⟨fun s ops h hops => run_reply ops s h hops,
   fun op s => step_count op s⟩

theorem c1_single_flight_witness :
    (w1S.update_reply_pending = true ∧
     countUpdateRects
       (run [Op.invalidateRect ⟨1, 1, 20, 20⟩,
             Op.scrollRect 5 0 ⟨0, 0, 30, 30⟩,
             Op.deferredUpdateTask okEnv] w1S).2.sent = 0 ∧
     (run [Op.invalidateRect ⟨1, 1, 20, 20⟩,
           Op.scrollRect 5 0 ⟨0, 0, 30, 30⟩,
           Op.deferredUpdateTask okEnv] w1S).1.update_reply_pending =
       true) ∧
    countUpdateRects (step (Op.deferredUpdateTask okEnv) baseS).2.sent ≤
      1 :=
  ⟨⟨by decide,
    (c1_single_flight.1 w1S _ (by decide) (by decide)).1,
    (c1_single_flight.1 w1S _ (by decide) (by decide)).2⟩,
   (c1_single_flight.2 (Op.deferredUpdateTask okEnv) baseS).1⟩

end RW
namespace RW

/-- C4 counterexample: with damage pending and buffer acquisition
failing, DoDeferredUpdate sends nothing and stays out of the in-flight
state, but the pending update does NOT remain queued in the
aggregator: the aggregator was cleared before the acquisition attempt,
so the damage is lost rather than retried. -/
theorem c4_counterexample :
    c4S.paint_aggregator.HasPendingUpdate = true ∧
    (DoDeferredUpdate c4Env c4S).2.sent = [] ∧
    (DoDeferredUpdate c4Env c4S).1.update_reply_pending = false ∧
    (DoDeferredUpdate c4Env c4S).1.paint_aggregator.HasPendingUpdate =
      false := by
  decide

/-- C4 amended: for every state in which DoDeferredUpdate would send,
if the drawing-canvas acquisition fails the flush is skipped — no
frame-update is sent, the widget stays out of the in-flight state, and
the held-buffer slot is untouched — but the snapshotted pending update
has already been cleared from the aggregator and is discarded, not
retried. -/
theorem c4_acquire_failure (env : UpdEnv) (s : RWState)
    (hw : s.webwidget = true)
    (hp : s.paint_aggregator.HasPendingUpdate = true)
    (hr : s.update_reply_pending = false)
    (hh : s.is_hidden = false) (hs : s.size.IsEmpty = false)
    (ha : env.acquireOk = false) :
    countUpdateRects (DoDeferredUpdate env s).2.sent = 0 ∧
    (DoDeferredUpdate env s).1.update_reply_pending = false ∧
    (DoDeferredUpdate env s).1.paint_aggregator = PaintAggregator.empty ∧
    (DoDeferredUpdate env s).1.current_paint_buf = s.current_paint_buf := by
  rw [DDU_send env s hw hp hr hh hs]
  obtain ⟨e, hsp, hcount⟩ := sendPhase_fail env s ha
  rw [hsp]
  exact ⟨hcount, hr, rfl, rfl⟩

theorem c4_acquire_failure_witness :
    countUpdateRects (DoDeferredUpdate c4Env c4S).2.sent = 0 ∧
    (DoDeferredUpdate c4Env c4S).1.update_reply_pending = false ∧
    (DoDeferredUpdate c4Env c4S).1.paint_aggregator =
      PaintAggregator.empty ∧
    (DoDeferredUpdate c4Env c4S).1.current_paint_buf =
      c4S.current_paint_buf :=
  c4_acquire_failure c4Env c4S (by decide) (by decide) (by decide)
    (by decide) (by decide) (by decide)

end RW
namespace RW

/-- C9 counterexample: with a scroll queued and an unrelated paint
rect also pending, the flush does NOT degrade to a single
bounding-union rect: the sent copy_rects keep the individual paint
rect (20,20,5,5) followed by the scroll damage, and are not one rect
equal to the union bounds (0,0,25,25), nor that rect plus the scroll
damage. -/
theorem c9_counterexample :
    c9S.paint_aggregator.scroll_rect.IsEmpty = false ∧
    (firstUpdateRect (DoDeferredUpdate c9Env c9S).2.sent).map
        (fun p => p.bitmap_rect) = some ⟨0, 0, 25, 25⟩ ∧
    (firstUpdateRect (DoDeferredUpdate c9Env c9S).2.sent).map
        (fun p => p.copy_rects) =
      some [⟨20, 20, 5, 5⟩, ⟨0, 0, 10, 10⟩] ∧
    ([⟨20, 20, 5, 5⟩, ⟨0, 0, 10, 10⟩] : List Rect) ≠
      [⟨0, 0, 25, 25⟩] ∧
    ([⟨20, 20, 5, 5⟩, ⟨0, 0, 10, 10⟩] : List Rect) ≠
      [⟨0, 0, 25, 25⟩, ⟨0, 0, 10, 10⟩] := by
  decide

/-- C9 amended: the collapse to a single rect happens exactly when no
scroll is queued — the sent copy_rects are the snapshot's paint rects,
collapsed to the single device-adjusted union-bounds rect precisely
when the snapshot's scroll rect is empty, followed by the scroll
damage rect when the scroll damage is non-empty; the bitmap rect is
always the device-adjusted union bounds. -/
theorem c9_copy_rects (env : UpdEnv) (s : RWState)
    (hw : s.webwidget = true)
    (hp : s.paint_aggregator.HasPendingUpdate = true)
    (hr : s.update_reply_pending = false)
    (hh : s.is_hidden = false) (hs : s.size.IsEmpty = false)
    (hc : s.closing = false) (ha : env.acquireOk = true)
    (hg : env.acceleratedActive = false) :
    ∃ p, firstUpdateRect (DoDeferredUpdate env s).2.sent = some p ∧
      p.bitmap_rect = sentBounds env (snapshotAgg env s) ∧
      p.copy_rects = sentCopyRects env (snapshotAgg env s) := by
  rw [DDU_send env s hw hp hr hh hs]
  obtain ⟨pre, post, hpre, hpost, hsp⟩ := sendPhase_eq env s hp ha hc
  rw [hsp]
  refine ⟨sentParams env s (snapshotAgg env s), ?_, ?_, ?_⟩
  · simp [effSent, firstUpdateRect_append,
      firstUpdateRect_of_count_zero _ hpre, firstUpdateRect]
  · rfl
  · simp [sentParams, hg]

theorem c9_copy_rects_witness :
    ∃ p, firstUpdateRect (DoDeferredUpdate c9Env c9S).2.sent = some p ∧
      p.bitmap_rect = sentBounds c9Env (snapshotAgg c9Env c9S) ∧
      p.copy_rects = sentCopyRects c9Env (snapshotAgg c9Env c9S) :=
  c9_copy_rects c9Env c9S (by decide) (by decide) (by decide)
    (by decide) (by decide) (by decide) (by decide) (by decide)

end RW
namespace RW

/-- C2: OnUpdateRectAck with an update in flight and a held buffer
releases exactly one transport DIB; if damage accumulated while the
update was in flight (and the widget can paint), the re-run of the
deferred update sends exactly one new ViewHostMsg_UpdateRect and the
widget is in flight again with the newly acquired buffer; if no damage
accumulated, nothing is sent, the widget leaves the in-flight state
and no buffer is held. -/
theorem c2_ack_closes_loop (env : UpdEnv) (s : RWState) (b : Nat)
    (hrp : s.update_reply_pending = true)
    (hb : s.current_paint_buf = some b)
    (hw : s.webwidget = true) (hh : s.is_hidden = false)
    (hs : s.size.IsEmpty = false) (hc : s.closing = false)
    (ha : env.acquireOk = true) :
    (s.paint_aggregator.HasPendingUpdate = true →
       (OnUpdateRectAck env s).2.dibReleases = 1 ∧
       countUpdateRects (OnUpdateRectAck env s).2.sent = 1 ∧
       (OnUpdateRectAck env s).1.update_reply_pending = true ∧
       (OnUpdateRectAck env s).1.current_paint_buf = some env.bufId) ∧
    (s.paint_aggregator.HasPendingUpdate = false →
       (OnUpdateRectAck env s).2.dibReleases = 1 ∧
       countUpdateRects (OnUpdateRectAck env s).2.sent = 0 ∧
       (OnUpdateRectAck env s).1.update_reply_pending = false ∧
       (OnUpdateRectAck env s).1.current_paint_buf = none) := by
  constructor
  · intro hp
    have hd : DoDeferredUpdate env
        { s with update_reply_pending := false,
                 current_paint_buf := none } =
        sendPhase env
          { s with update_reply_pending := false,
                   current_paint_buf := none } :=
      DDU_send env _ hw hp rfl hh hs
    obtain ⟨pre, post, hpre, hpost, hsp⟩ := sendPhase_eq env
      { s with update_reply_pending := false, current_paint_buf := none }
      hp ha hc
    simp only [OnUpdateRectAck, hb, CallDoDeferredUpdate, hd, hsp]
    cases hsl : s.pending_input_event_ack with
    | none =>
      refine ⟨by simp [Eff.add, Eff.nil, effSent], ?_, rfl, rfl⟩
      simp [Eff.add, Eff.nil, effSent, countUpdateRects_append,
        countUpdateRects_nil, countUpdateRects_cons, Msg.isUpdateRect,
        hpre, hpost]
    | some x =>
      refine ⟨by simp [Eff.add, Eff.nil, effSent], ?_, rfl, rfl⟩
      simp [Eff.add, Eff.nil, effSent, countUpdateRects_append,
        countUpdateRects_nil, countUpdateRects_cons, Msg.isUpdateRect,
        hpre, hpost, countUpdateRects_Send_ack]
  · intro hp0
    have hd : DoDeferredUpdate env
        { s with update_reply_pending := false,
                 current_paint_buf := none } =
        ({ s with update_reply_pending := false,
                  current_paint_buf := none }, Eff.nil) :=
      DDU_guard env _ (Or.inr (Or.inl hp0))
    simp only [OnUpdateRectAck, hb, CallDoDeferredUpdate, hd]
    cases hsl : s.pending_input_event_ack with
    | none =>
      exact ⟨by simp [Eff.add, Eff.nil, effSent],
        by simp [Eff.add, Eff.nil, effSent, countUpdateRects_nil],
        rfl, rfl⟩
    | some x =>
      exact ⟨by simp [Eff.add, Eff.nil, effSent],
        by simp [Eff.add, Eff.nil, effSent, countUpdateRects_append,
          countUpdateRects_nil, countUpdateRects_Send_ack],
        rfl, rfl⟩

theorem c2_ack_closes_loop_witness :
    w2S.paint_aggregator.HasPendingUpdate = true ∧
    (OnUpdateRectAck okEnv w2S).2.dibReleases = 1 ∧
    countUpdateRects (OnUpdateRectAck okEnv w2S).2.sent = 1 ∧
    (OnUpdateRectAck okEnv w2S).1.update_reply_pending = true ∧
    (OnUpdateRectAck okEnv w2S).1.current_paint_buf = some okEnv.bufId :=
  ⟨by decide,
   (c2_ack_closes_loop okEnv w2S 42 (by decide) (by decide) (by decide)
      (by decide) (by decide) (by decide) (by decide)).1 (by decide)⟩

end RW
namespace RW

theorem Send_sent_eq (s : RWState) (m : Msg) (h : s.closing = false) :
    (s.Send m).2 =
      [⟨if m.routing_id = MSG_ROUTING_NONE then s.routing_id
        else m.routing_id, m.payload⟩] := by
  simp only [RWState.Send]
  rw [if_neg (by simp [h])]
  split <;> rfl

theorem DDU_slot (env : UpdEnv) (s : RWState) :
    (DoDeferredUpdate env s).1.pending_input_event_ack =
      s.pending_input_event_ack ∧
    (DoDeferredUpdate env s).1.closing = s.closing := by
  obtain ⟨a, g, b, p, f, pm, n, e, hd⟩ := DDU_shape env s
  rw [hd]
  exact ⟨rfl, rfl⟩

/-- C5: input-ack coalescing — a MouseMove or MouseWheel event with a
paint pending does not ack immediately: with the slot empty the ack is
buffered and nothing is sent; with the slot full the previously
buffered ack is sent and only then replaced; any other event type, or
no pending paint, acks immediately and leaves the slot alone; and a
buffered ack is released (sent, slot emptied) by the next
CallDoDeferredUpdate. -/
theorem c5_input_ack_coalescing :
    (∀ (env : InputEnv) (s : RWState),
       env.readOk = true →
       (env.eventType = EventType.MouseMove ∨
        env.eventType = EventType.MouseWheel) →
       s.paint_aggregator.HasPendingUpdate = true →
       s.pending_input_event_ack = none →
       (OnHandleInputEvent env s).2.sent = [] ∧
       (OnHandleInputEvent env s).1.pending_input_event_ack =
         some ⟨s.routing_id, env.eventType,
               if s.webwidget then env.widgetProcessed else false⟩) ∧
    (∀ (env : InputEnv) (s : RWState) (old : PendingAck),
       env.readOk = true → s.closing = false →
       (env.eventType = EventType.MouseMove ∨
        env.eventType = EventType.MouseWheel) →
       s.paint_aggregator.HasPendingUpdate = true →
       s.pending_input_event_ack = some old →
       (∃ i, (OnHandleInputEvent env s).2.sent =
          [⟨i, Payload.inputEventAck old.event_type old.processed⟩]) ∧
       (OnHandleInputEvent env s).1.pending_input_event_ack =
         some ⟨s.routing_id, env.eventType,
               if s.webwidget then env.widgetProcessed else false⟩) ∧
    (∀ (env : InputEnv) (s : RWState),
       env.readOk = true → s.closing = false →
       ((env.eventType ≠ EventType.MouseMove ∧
         env.eventType ≠ EventType.MouseWheel) ∨
        s.paint_aggregator.HasPendingUpdate = false) →
       (∃ i pr, (OnHandleInputEvent env s).2.sent =
          [⟨i, Payload.inputEventAck env.eventType pr⟩]) ∧
       (OnHandleInputEvent env s).1.pending_input_event_ack =
         s.pending_input_event_ack) ∧
    (∀ (env : UpdEnv) (s : RWState) (a : PendingAck),
       s.closing = false → s.pending_input_event_ack = some a →
       (CallDoDeferredUpdate env s).1.pending_input_event_ack = none ∧
       (∃ i, (⟨i, Payload.inputEventAck a.event_type a.processed⟩ : Msg)
          ∈ (CallDoDeferredUpdate env s).2.sent)) := by
  refine ⟨?_, ?_, ?_, ?_⟩
  · intro env s hro ht hp hsl
    rcases ht with ht | ht <;>
      simp [OnHandleInputEvent, hro, ht, hp, hsl, Eff.nil]
  · intro env s old hro hc ht hp hsl
    rcases ht with ht | ht <;>
      simp [OnHandleInputEvent, hro, ht, hp, hsl, effSent,
        PendingAck.toMsg, Send_sent_eq, hc]
  · intro env s hro hc hcond
    have hnc : ¬((env.eventType = EventType.MouseMove ∨
        env.eventType = EventType.MouseWheel) ∧
        s.paint_aggregator.HasPendingUpdate = true) := by
      rcases hcond with ⟨h1, h2⟩ | h1
      · rintro ⟨h3 | h3, _⟩
        · exact h1 h3
        · exact h2 h3
      · rintro ⟨_, h3⟩
        rw [h1] at h3
        cases h3
    simp only [OnHandleInputEvent, hro]
    rw [if_neg (by simpa using hro)]
    split_ifs <;>
      first
      | (exfalso
         exact hnc (by assumption))
      | (refine ⟨?_, rfl⟩
         simp only [effSent, PendingAck.toMsg]
         simp [Send_sent_eq, hc]
         all_goals first
         | exact ⟨_, _, rfl⟩
         | rfl)
  · intro env s a hc hsl
    obtain ⟨hslot, hclos⟩ := DDU_slot env s
    simp only [CallDoDeferredUpdate, hslot, hsl]
    constructor
    · trivial
    · refine ⟨if a.routing_id = MSG_ROUTING_NONE then
        (DoDeferredUpdate env s).1.routing_id else a.routing_id, ?_⟩
      simp [Eff.add, effSent, PendingAck.toMsg, Send_sent_eq, hclos, hc]

theorem c5_input_ack_coalescing_witness :
    ((∃ i, (OnHandleInputEvent w5E w5S).2.sent =
        [⟨i, Payload.inputEventAck EventType.MouseMove true⟩]) ∧
     (OnHandleInputEvent w5E w5S).1.pending_input_event_ack =
       some ⟨w5S.routing_id, w5E.eventType,
             if w5S.webwidget then w5E.widgetProcessed else false⟩) ∧
    ((CallDoDeferredUpdate okEnv w5S).1.pending_input_event_ack =
       none ∧
     (∃ i, (⟨i, Payload.inputEventAck EventType.MouseMove true⟩ : Msg)
        ∈ (CallDoDeferredUpdate okEnv w5S).2.sent)) :=
  ⟨c5_input_ack_coalescing.2.1 w5E w5S ⟨7, EventType.MouseMove, true⟩
     (by decide) (by decide) (Or.inr (by decide)) (by decide)
     (by decide),
   c5_input_ack_coalescing.2.2.2 okEnv w5S
     ⟨7, EventType.MouseMove, true⟩ (by decide) (by decide)⟩

end RW
namespace RW

theorem Intersect_full (w h : Int) :
    Rect.Intersect ⟨0, 0, w, h⟩ ⟨0, 0, w, h⟩ =
      if (⟨0, 0, w, h⟩ : Rect).IsEmpty then ⟨0, 0, 0, 0⟩
      else ⟨0, 0, w, h⟩ := by
  by_cases hw : w ≤ 0
  · simp [Rect.Intersect, Rect.right, Rect.bottom, Rect.IsEmpty, hw]
  · by_cases hh : h ≤ 0
    · simp [Rect.Intersect, Rect.right, Rect.bottom, Rect.IsEmpty, hw, hh]
    · simp [Rect.Intersect, Rect.right, Rect.bottom, Rect.IsEmpty, hw, hh]

theorem resizeAckBit_set (f : Nat) :
    resizeAckBit (f ||| IS_RESIZE_ACK) = true := by
  rw [resizeAckBit_lor]
  have h : resizeAckBit IS_RESIZE_ACK = true := by decide
  simp [h]

/-- C6: OnResize on a live widget whose resize-ack flag is not already
pending (the code DCHECKs this) adopts the new size, sends nothing,
replaces any pending damage with exactly the full-view invalidation
(or nothing, for an empty size), and sets the IS_RESIZE_ACK bit in
next_paint_flags_ iff the new size is non-empty; and while that bit is
set (and the widget is not closing), the first ViewHostMsg_UpdateRect
subsequently sent by any sequence of operations carries the
IS_RESIZE_ACK flag. -/
theorem c6_resize :
    (∀ (n : Size) (r : Rect) (s : RWState),
       s.webwidget = true →
       resizeAckBit s.next_paint_flags = false →
       (OnResize n r s).1.size = n ∧
       (OnResize n r s).2.sent = [] ∧
       resizeAckBit (OnResize n r s).1.next_paint_flags = !n.IsEmpty ∧
       (OnResize n r s).1.paint_aggregator =
         (if n.IsEmpty then PaintAggregator.empty
          else { PaintAggregator.empty with
                 paint_rects := [⟨0, 0, n.w, n.h⟩] })) ∧
    (∀ (s : RWState) (ops : List Op) (p : UpdateRectParams),
       resizeAckBit s.next_paint_flags = true →
       firstUpdateRect (run ops s).2.sent = some p →
       resizeAckBit p.flags = true) := by
  constructor
  · intro n r s hw hbit
    simp only [OnResize, hw, Bool.not_true, Bool.false_eq_true,
      if_false]
    rw [didInval_eq]
    simp only [viewRect]
    rw [Intersect_full]
    by_cases hn : n.IsEmpty = true
    · have hre : (⟨0, 0, n.w, n.h⟩ : Rect).IsEmpty = true := by
        simpa [Rect.IsEmpty, Size.IsEmpty] using hn
      rw [if_pos hre, if_pos (show (⟨0, 0, 0, 0⟩ : Rect).IsEmpty = true
        from by decide), if_neg (show ¬(!n.IsEmpty) = true from by
        simp [hn]), if_pos hn]
      exact ⟨rfl, rfl, by simp [hbit, hn], rfl⟩
    · have hn2 : n.IsEmpty = false := by simpa using hn
      have hre : (⟨0, 0, n.w, n.h⟩ : Rect).IsEmpty = false := by
        simpa [Rect.IsEmpty, Size.IsEmpty] using hn2
      rw [if_pos (show (!n.IsEmpty) = true from by simp [hn2]),
        if_neg (show ¬((⟨0, 0, n.w, n.h⟩ : Rect).IsEmpty = true) from
          by simp [hre])]
      rw [if_neg (show ¬((⟨0, 0, n.w, n.h⟩ : Rect).IsEmpty = true) from
          by simp [hre]),
        if_neg (show ¬(n.IsEmpty = true) from by simp [hn2])]
      refine ⟨rfl, ?_, ?_, ?_⟩
      · split <;> rfl
      · simp [resizeAckBit_set, hn2]
      · simp [PaintAggregator.ClearPendingUpdate,
          PaintAggregator.InvalidateRect, PaintAggregator.empty]
  · intro s ops p hbit hfirst
    rcases run_flag ops s (Or.inl hbit) with h | ⟨q, hq, hqbit⟩
    · rw [h] at hfirst
      cases hfirst
    · rw [hq] at hfirst
      cases hfirst
      exact hqbit

theorem c6_resize_witness :
    ((OnResize ⟨800, 600⟩ ⟨0, 0, 0, 0⟩
        { baseS with size := ⟨0, 0⟩ }).1.size = ⟨800, 600⟩ ∧
     (OnResize ⟨800, 600⟩ ⟨0, 0, 0, 0⟩
        { baseS with size := ⟨0, 0⟩ }).2.sent = [] ∧
     resizeAckBit (OnResize ⟨800, 600⟩ ⟨0, 0, 0, 0⟩
        { baseS with size := ⟨0, 0⟩ }).1.next_paint_flags =
       !(⟨800, 600⟩ : Size).IsEmpty ∧
     (OnResize ⟨800, 600⟩ ⟨0, 0, 0, 0⟩
        { baseS with size := ⟨0, 0⟩ }).1.paint_aggregator =
       (if (⟨800, 600⟩ : Size).IsEmpty then PaintAggregator.empty
        else { PaintAggregator.empty with
               paint_rects := [⟨0, 0, 800, 600⟩] })) ∧
    (∀ p, firstUpdateRect
        (run [Op.deferredUpdateTask okEnv]
          { baseS with
            next_paint_flags := 1
            paint_aggregator :=
              PaintAggregator.empty.InvalidateRect ⟨0, 0, 10, 10⟩ }).2.sent =
        some p → resizeAckBit p.flags = true) :=
  ⟨c6_resize.1 ⟨800, 600⟩ ⟨0, 0, 0, 0⟩ { baseS with size := ⟨0, 0⟩ }
     (by decide) (by decide),
   fun p hp => c6_resize.2 _ _ p (by decide) hp⟩

end RW
